import Mathlib

/-! Verification of drm_framebuffer: display enumeration, mode selection,
the buffer import and the page-flip scheduler.

A shallow embedding of `drm_framebuffer.c`.  Stateful functions take the
`drm_framebuffer` record and return the updated record; every call into libdrm
is recorded in a trace, and what the kernel answers is an explicit input.
Unsigned 32-bit fields are naturals, C `int` values are integers, and the
casts between them that the source performs are written out.
-/

namespace DrmFramebuffer

/-! ## Data model -/

/-- The fields of `drmModeModeInfo` that the source reads. -/
structure drmModeModeInfo where
  hdisplay : Nat
  vdisplay : Nat
  vrefresh : Nat
  type : Nat
  deriving DecidableEq, Repr

/-- The integer fields of `framebuffer_device_t` that `fb0_init` fills in
(the float fields xdpi, ydpi and fps are left out). -/
structure framebuffer_device_t where
  flags : Nat
  width : Nat
  height : Nat
  stride : Int
  format : Int
  minSwapInterval : Int
  maxSwapInterval : Int
  deriving DecidableEq, Repr

/-- The record `struct drm_framebuffer`.  The event context is not a field
here: after `fb0_init` its page-flip handler is always `fb0_handle_page_flip`. -/
structure drm_framebuffer where
  device : framebuffer_device_t
  fd : Int
  connector_id : Nat
  crtc_id : Nat
  mode : drmModeModeInfo
  current_fb : Nat
  next_fb : Nat
  deriving DecidableEq, Repr

/-- The fields of `struct gralloc_handle_t` that the source reads.  `data` is
the pointer-sized slot whose low 32 bits cache the framebuffer id. -/
structure gralloc_handle_t where
  width : Nat
  height : Nat
  stride : Nat
  format : Nat
  usage : Nat
  prime_fd : Int
  data : Nat
  deriving DecidableEq, Repr

/-- A call into libdrm made by the scheduler, with the arguments that vary.
`drmModePageFlip` is always called with the flag DRM_MODE_PAGE_FLIP_EVENT and
the framebuffer record as user data. -/
inductive KernelCall where
  | drmModeSetCrtc (fd : Int) (crtcId bufferId x y : Nat)
      (connectors : List Nat) (mode : Option drmModeModeInfo)
  | drmModePageFlip (fd : Int) (crtcId fbId : Nat)
  | drmHandleEvent (fd : Int)
  deriving DecidableEq, Repr

/-- What the kernel answers during one entry point of the scheduler.  Each
entry point calls `drmHandleEvent` at most once and then at most one of
`drmModeSetCrtc` and `drmModePageFlip`.  `flips` is the number of flip
completion events that `drmHandleEvent` dispatches to the page-flip handler,
`ret` the return value of the mode-setting call and `errno` the value of
`errno` after it. -/
structure Kernel where
  flips : Nat
  ret : Int
  errno : Int
  deriving DecidableEq, Repr

/-- The outcome of an entry point: return value, new record, libdrm calls made
in order. -/
structure Outcome where
  ret : Int
  fb : drm_framebuffer
  calls : List KernelCall
  deriving DecidableEq, Repr

/-- Conversion of a C `int` to `uint32_t`. -/
def toU32 (i : Int) : Nat := (i % 4294967296).toNat

/-- Conversion of a `uint32_t` to a C `int` (two's complement). -/
def toS32 (n : Nat) : Int :=
  if n % 4294967296 < 2147483648 then (n % 4294967296 : Nat) else (n % 4294967296 : Nat) - 4294967296

/-! ## The page-flip scheduler -/

/-- The handler `fb0_handle_page_flip`. -/
def fb0_handle_page_flip (fb : drm_framebuffer) : drm_framebuffer :=
  { fb with current_fb := fb.next_fb, next_fb := 0 }

/-- The libdrm call `drmHandleEvent`: it dispatches each flip completion event
it reads to the page-flip handler of the event context. -/
def drmHandleEvent (k : Kernel) (fb : drm_framebuffer) : drm_framebuffer :=
  Nat.iterate fb0_handle_page_flip k.flips fb

/-- The function `fb0_await_page_flip`. -/
def fb0_await_page_flip (k : Kernel) (fb : drm_framebuffer) :
    drm_framebuffer × List KernelCall :=
  if fb.next_fb ≠ 0 then
    let fb1 := drmHandleEvent k fb
    if fb1.next_fb ≠ 0 then
      ({ fb1 with current_fb := fb1.next_fb, next_fb := 0 }, [KernelCall.drmHandleEvent fb.fd])
    else
      (fb1, [KernelCall.drmHandleEvent fb.fd])
  else
    (fb, [])

/-- The function `fb0_page_flip`.  `EBUSY` is the constant of errno.h, which
is not part of the repository. -/
def fb0_page_flip (EBUSY : Int) (k : Kernel) (fb : drm_framebuffer) (fb_id : Int) : Outcome :=
  let aw := fb0_await_page_flip k fb
  let fb1 := aw.1
  let calls := aw.2 ++ [KernelCall.drmModePageFlip fb1.fd fb1.crtc_id (toU32 fb_id)]
  if k.ret ≠ 0 then
    if k.errno ≠ -EBUSY then
      { ret := k.errno, fb := { fb1 with current_fb := 0 }, calls := calls }
    else
      { ret := k.errno, fb := fb1, calls := calls }
  else
    { ret := 0, fb := { fb1 with next_fb := toU32 fb_id }, calls := calls }

/-- The function `fb0_enable_crtc`. -/
def fb0_enable_crtc (k : Kernel) (fb : drm_framebuffer) (fb_id : Nat) : Outcome :=
  let calls := [KernelCall.drmModeSetCrtc fb.fd fb.crtc_id fb_id 0 0 [fb.connector_id] (some fb.mode)]
  if k.ret ≠ 0 then
    { ret := k.ret, fb := fb, calls := calls }
  else
    { ret := k.ret, fb := { fb with current_fb := fb_id }, calls := calls }

/-- The function `fb0_disable_crtc`. -/
def fb0_disable_crtc (k : Kernel) (fb : drm_framebuffer) : Outcome :=
  let aw := fb0_await_page_flip k fb
  let fb1 := aw.1
  let calls := aw.2 ++ [KernelCall.drmModeSetCrtc fb1.fd fb1.crtc_id 0 0 0 [] none]
  if k.ret ≠ 0 then
    { ret := k.ret, fb := fb1, calls := calls }
  else
    { ret := k.ret, fb := { fb1 with current_fb := 0 }, calls := calls }

/-- The cast `(uint32_t) handle->data`: the framebuffer id cached on a buffer. -/
def cached_fb (handle : gralloc_handle_t) : Nat := handle.data % 4294967296

/-- The function `fb0_post`.  `buffer` is what `gralloc_handle` returns for the
buffer: `none` for the null pointer.  `EINVAL` and `EBUSY` are the constants of
errno.h. -/
def fb0_post (EINVAL EBUSY : Int) (k : Kernel) (fb : drm_framebuffer)
    (buffer : Option gralloc_handle_t) : Outcome :=
  match buffer with
  | none => { ret := -EINVAL, fb := fb, calls := [] }
  | some handle =>
    let fb_id := cached_fb handle
    if fb_id = 0 then
      { ret := -EINVAL, fb := fb, calls := [] }
    else if fb.current_fb = fb_id then
      { ret := 0, fb := fb, calls := [] }
    else if fb.current_fb ≠ 0 then
      fb0_page_flip EBUSY k fb (toS32 fb_id)
    else
      fb0_enable_crtc k fb fb_id

/-- The function `fb0_enable_screen`. -/
def fb0_enable_screen (k : Kernel) (fb : drm_framebuffer) (enable : Int) : Outcome :=
  if enable = 0 ∧ fb.current_fb ≠ 0 then
    fb0_disable_crtc k fb
  else
    { ret := 0, fb := fb, calls := [] }

/-- A step of the scheduler: one of its two entry points that change the
state, or the delivery of a flip completion event to the page-flip handler
outside of them. -/
inductive Step where
  | post (buffer : Option gralloc_handle_t)
  | enable_screen (enable : Int)
  | page_flip_event
  deriving DecidableEq, Repr

/-- The outcome of one step of the scheduler. -/
def step (EINVAL EBUSY : Int) (k : Kernel) (fb : drm_framebuffer) : Step → Outcome
  | Step.post buffer => fb0_post EINVAL EBUSY k fb buffer
  | Step.enable_screen enable => fb0_enable_screen k fb enable
  | Step.page_flip_event => { ret := 0, fb := fb0_handle_page_flip fb, calls := [] }

/-- A framebuffer record with the given scheduler state, the other fields fixed. -/
def sampleFb (current next : Nat) : drm_framebuffer :=
  { device := { flags := 0, width := 1920, height := 1080, stride := 1080, format := 1,
                minSwapInterval := 1, maxSwapInterval := 1 },
    fd := 3, connector_id := 7, crtc_id := 5,
    mode := { hdisplay := 1920, vdisplay := 1080, vrefresh := 60, type := 72 },
    current_fb := current, next_fb := next }

/-- A valid buffer on which the framebuffer id `fb_id` is cached. -/
def sampleBuffer (fb_id : Nat) : gralloc_handle_t :=
  { width := 1920, height := 1080, stride := 7680, format := 1, usage := 4096,
    prime_fd := 9, data := fb_id }

/-! ## Mode selection -/

/-- The fields of `drmModeConnector` that the source reads; `modes` holds the
`count_modes` entries of the mode array and `encoders` the encoder ids. -/
structure drmModeConnector where
  connector_id : Nat
  connection : Nat
  encoders : List Nat
  modes : List drmModeModeInfo
  mmWidth : Nat
  mmHeight : Nat
  deriving DecidableEq, Repr

/-- The C library test `isspace` in the C locale: space, and the controls
from tab (9) to carriage return (13). -/
def isspace (c : Char) : Bool := c.toNat = 32 || (9 ≤ c.toNat && c.toNat ≤ 13)

/-- The C library test `isdigit`. -/
def isdigit (c : Char) : Bool := 48 ≤ c.toNat && c.toNat ≤ 57

/-- White space skipped at the start of a `%d` conversion. -/
def skipSpace : List Char → List Char
  | [] => []
  | c :: cs => if isspace c then skipSpace cs else c :: cs

/-- The run of decimal digits at the head of the input, accumulated onto `acc`,
and the input left after it. -/
def scanDigits : List Char → Nat → Nat × List Char
  | [], acc => (acc, [])
  | c :: cs, acc =>
    if isdigit c then scanDigits cs (acc * 10 + (c.toNat - 48)) else (acc, c :: cs)

/-- One `%d` conversion of the C library scanner: white space is skipped, then
an optional sign and at least one decimal digit are read.  The result is the
number read and the rest of the input, or `none` when there is no number. -/
def scanInt (s : List Char) : Option (Int × List Char) :=
  match skipSpace s with
  | [] => none
  | c :: cs =>
    let body := if c = '+' ∨ c = '-' then cs else c :: cs
    match body with
    | [] => none
    | d :: ds =>
      if isdigit d then
        let r := scanDigits (d :: ds) 0
        some (if c = '-' then -(r.1 : Int) else (r.1 : Int), r.2)
      else none

/-- A directive of a scanner format: the conversion `%d` or an ordinary
character, which has to match the next input character. -/
inductive Directive where
  | int
  | lit (c : Char)
  deriving DecidableEq, Repr

/-- The C library function `sscanf` for formats made of `%d` and ordinary
characters.  The result lists the numbers converted, in order, up to the first
directive that fails; the value `sscanf` returns is the length of that list
(or EOF, which is negative, when the input ends before the first conversion). -/
def sscanf : List Directive → List Char → List Int
  | [], _ => []
  | Directive.lit c :: fmt, s =>
    match s with
    | [] => []
    | c1 :: s1 => if c1 = c then sscanf fmt s1 else []
  | Directive.int :: fmt, s =>
    match scanInt s with
    | none => []
    | some (v, s1) => v :: sscanf fmt s1

/-- The format string "%dx%d@%d". -/
def fmt_dxd_at_d : List Directive :=
  [Directive.int, Directive.lit 'x', Directive.int, Directive.lit '@', Directive.int]

/-- The format string "%dx%d". -/
def fmt_dxd : List Directive := [Directive.int, Directive.lit 'x', Directive.int]

/-- The locals `xres`, `yres`, `rate` of `fb0_find_preferred_mode`. -/
structure Forced where
  xres : Nat
  yres : Nat
  rate : Nat
  deriving DecidableEq, Repr

/-- The stores that `sscanf` makes through the pointers to `xres`, `yres` and
`rate`: one per converted number, in order; a variable whose conversion was not
reached keeps its value.  A number is stored as the 32-bit pattern of the
C `int` it is converted to; for a number outside the range of `int` the
C standard leaves the result open, and the number is taken modulo 2^32 here
(a C library may saturate a number beyond the range of `long` instead). -/
def store (vals : List Int) (v : Forced) : Forced :=
  match vals with
  | [] => v
  | [a] => { v with xres := toU32 a }
  | [a, b] => { v with xres := toU32 a, yres := toU32 b }
  | a :: b :: c :: _ => { xres := toU32 a, yres := toU32 b, rate := toU32 c }

/-- The call `property_get("debug.drm.mode.force", value, NULL)` of libcutils:
`prop` is the value of the property when it is set; the call returns the length
of the value and copies the value, and with the null default a property that is
not set gives length 0. -/
def property_get (prop : Option (List Char)) : Nat × List Char :=
  match prop with
  | none => (0, [])
  | some s => (s.length, s)

/-- Lines 95 to 105 of `fb0_find_preferred_mode`: the forced mode read from the
property, `xres = yres = 0` when there is none. -/
def forced_mode (prop : Option (List Char)) : Forced :=
  let v0 : Forced := { xres := 0, yres := 0, rate := 0 }
  let pg := property_get prop
  if pg.1 ≠ 0 then
    let r3 := sscanf fmt_dxd_at_d pg.2
    let v1 := store r3 v0
    if r3.length ≠ 3 then
      let v2 := { v1 with rate := 0 }
      let r2 := sscanf fmt_dxd pg.2
      let v3 := store r2 v2
      if r2.length ≠ 2 then { v3 with xres := 0, yres := 0 } else v3
    else v1
  else v0

/-- The scan loop of `fb0_find_preferred_mode` over the modes from index `i`
on.  The pointer `mode` is the index it points at in the mode array, `none` for
the null pointer.  `PREFERRED` is the constant DRM_MODE_TYPE_PREFERRED of
the libdrm headers. -/
def find_mode_loop (PREFERRED : Nat) (v : Forced) :
    List drmModeModeInfo → Nat → Option Nat → Option Nat
  | [], _, mode => mode
  | m :: ms, i, _ =>
    if v.xres ≠ 0 ∧ v.yres ≠ 0 then
      if m.hdisplay = v.xres ∧ m.vdisplay = v.yres ∧ (v.rate = 0 ∨ m.vrefresh = v.rate) then
        some i
      else find_mode_loop PREFERRED v ms (i + 1) (some i)
    else if m.type &&& PREFERRED ≠ 0 then
      some i
    else find_mode_loop PREFERRED v ms (i + 1) (some i)

/-- The function `fb0_find_preferred_mode`: the index of the mode the returned
pointer points at, `none` for the null pointer. -/
def fb0_find_preferred_mode (PREFERRED : Nat) (prop : Option (List Char))
    (connector : drmModeConnector) : Option Nat :=
  find_mode_loop PREFERRED (forced_mode prop) connector.modes 0 none

/-! ## Properties used to state the claims -/

/-- A flip completion is delivered during a step: the step is the delivery
itself and current_fb becomes the former pending_fb, or the step waits with
`drmHandleEvent`, which dispatches at least one completion event, and
current_fb is the pending_fb that one of these events found. -/
def Notified (k : Kernel) (fb : drm_framebuffer) (s : Step) (out : Outcome) : Prop :=
  (s = Step.page_flip_event ∧ out.fb.current_fb = fb.next_fb)
  ∨ (KernelCall.drmHandleEvent fb.fd ∈ out.calls
      ∧ ∃ j, j < k.flips
        ∧ out.fb.current_fb = (Nat.iterate fb0_handle_page_flip j fb).next_fb)

/-- The three causes that the data model of the specification allows for a
change of current_fb: (a) a successful CRTC enable, which sets it to the posted
id, (b) a completion notification, (c) a successful explicit disable, which
sets it to 0. -/
def SpecCause (k : Kernel) (fb : drm_framebuffer) (s : Step) (out : Outcome) : Prop :=
  (∃ h, s = Step.post (some h) ∧ k.ret = 0
      ∧ out.calls = [KernelCall.drmModeSetCrtc fb.fd fb.crtc_id (cached_fb h) 0 0
          [fb.connector_id] (some fb.mode)]
      ∧ out.fb.current_fb = cached_fb h)
  ∨ Notified k fb s out
  ∨ (s = Step.enable_screen 0 ∧ k.ret = 0
      ∧ KernelCall.drmModeSetCrtc fb.fd fb.crtc_id 0 0 0 [] none ∈ out.calls
      ∧ out.fb.current_fb = 0)

/-- A page-flip request of Post is rejected with an error other than busy and
current_fb is reset to 0. -/
def FlipFailed (EBUSY : Int) (k : Kernel) (fb : drm_framebuffer) (s : Step)
    (out : Outcome) : Prop :=
  ∃ h, s = Step.post (some h) ∧ k.ret ≠ 0 ∧ k.errno ≠ EBUSY
    ∧ KernelCall.drmModePageFlip fb.fd fb.crtc_id (cached_fb h) ∈ out.calls
    ∧ out.fb.current_fb = 0

/-- A wait returns without any completion event and the pending flip is forced:
current_fb becomes the former pending_fb. -/
def ForcedFlip (k : Kernel) (fb : drm_framebuffer) (out : Outcome) : Prop :=
  KernelCall.drmHandleEvent fb.fd ∈ out.calls ∧ k.flips = 0
    ∧ fb.next_fb ≠ 0 ∧ out.fb.current_fb = fb.next_fb

/-- The kernel rejects a page-flip request of the step with errno = EBUSY. -/
def FlipBusy (EBUSY : Int) (k : Kernel) (out : Outcome) : Prop :=
  k.ret ≠ 0 ∧ k.errno = EBUSY ∧ ∃ fd crtc fbId, KernelCall.drmModePageFlip fd crtc fbId ∈ out.calls

/-- The break condition of the scan loop for the mode `m`. -/
def breaks (PREFERRED : Nat) (v : Forced) (m : drmModeModeInfo) : Prop :=
  if v.xres ≠ 0 ∧ v.yres ≠ 0 then
    m.hdisplay = v.xres ∧ m.vdisplay = v.yres ∧ (v.rate = 0 ∨ m.vrefresh = v.rate)
  else m.type &&& PREFERRED ≠ 0

instance breaks_decidable (PREFERRED : Nat) (v : Forced) (m : drmModeModeInfo) :
    Decidable (breaks PREFERRED v m) := by
  unfold breaks
  exact inferInstance

/-- The text of one number as `%d` reads it: white space, an optional sign and
at least one decimal digit. -/
def IsNumberText (t : List Char) : Prop :=
  ∃ ws sg ds, t = ws ++ sg ++ ds ∧ (∀ c ∈ ws, isspace c = true)
    ∧ (sg = [] ∨ sg = ['+'] ∨ sg = ['-']) ∧ ds ≠ [] ∧ ∀ c ∈ ds, isdigit c = true

/-- The string begins with a number, the letter x and a second number;
anything may follow. -/
def StartsWithDims (s : List Char) : Prop :=
  ∃ t1 t2 rest, s = t1 ++ 'x' :: (t2 ++ rest) ∧ IsNumberText t1 ∧ IsNumberText t2

/-- A connector with the given modes, the other fields fixed. -/
def sampleConnector (modes : List drmModeModeInfo) : drmModeConnector :=
  { connector_id := 7, connection := 1, encoders := [11], modes := modes,
    mmWidth := 520, mmHeight := 290 }

/-- The mode list 1280x720, 1920x1080 (preferred), 3840x2160, all at 60 Hz;
the preferred bit is 8. -/
def modes3 : List drmModeModeInfo :=
  [ { hdisplay := 1280, vdisplay := 720, vrefresh := 60, type := 64 },
    { hdisplay := 1920, vdisplay := 1080, vrefresh := 60, type := 72 },
    { hdisplay := 3840, vdisplay := 2160, vrefresh := 60, type := 64 } ]

/-- Two 1920x1080 modes that differ only in refresh rate: 59 Hz, then 60 Hz. -/
def modes5960 : List drmModeModeInfo :=
  [ { hdisplay := 1920, vdisplay := 1080, vrefresh := 59, type := 64 },
    { hdisplay := 1920, vdisplay := 1080, vrefresh := 60, type := 64 } ]

/-- The mode list 1280x720, 1920x1080, 3840x2160 (preferred). -/
def modesLastPreferred : List drmModeModeInfo :=
  [ { hdisplay := 1280, vdisplay := 720, vrefresh := 60, type := 64 },
    { hdisplay := 1920, vdisplay := 1080, vrefresh := 60, type := 64 },
    { hdisplay := 3840, vdisplay := 2160, vrefresh := 60, type := 72 } ]

/-! ## Display enumeration and initialization -/

/-- The field of `drmModeEncoder` that the source reads. -/
structure drmModeEncoder where
  possible_crtcs : Nat
  deriving DecidableEq, Repr

/-- The fields of `drmModeRes` that the source reads: the connector ids and the
CRTC ids, `count_connectors` and `count_crtcs` being the lengths. -/
structure drmModeRes where
  connectors : List Nat
  crtcs : List Nat
  deriving DecidableEq, Repr

/-- The control device as libdrm reports it: the answers of
`drmModeGetResources`, `drmModeGetConnector` and `drmModeGetEncoder`, `none`
when the call returns the null pointer. -/
structure Device where
  resources : Option drmModeRes
  getConnector : Nat → Option drmModeConnector
  getEncoder : Nat → Option drmModeEncoder

/-- A descriptor obtained from libdrm or given back to it.  Connector and
encoder descriptors are named by the id they were requested for. -/
inductive ResourceEvent where
  | getResources
  | freeResources
  | getConnector (id : Nat)
  | freeConnector (id : Nat)
  | getEncoder (id : Nat)
  | freeEncoder (id : Nat)
  deriving DecidableEq, Repr

/-- The function `fb0_find_connector` over the connector ids of the resources.
The result is the descriptor returned, with the id it was requested for
(`none` for the null pointer), and the descriptors obtained and released on the
way.  The source reads `connector->connection` without testing the pointer, so
there is no result (the outer `none`) when `drmModeGetConnector` fails for an
id that the scan reaches.  `CONNECTED` is the constant DRM_MODE_CONNECTED of
the libdrm headers. -/
def fb0_find_connector (CONNECTED : Nat) (dev : Device) :
    List Nat → Option (Option (Nat × drmModeConnector) × List ResourceEvent)
  | [] => some (none, [])
  | id :: ids =>
    match dev.getConnector id with
    | none => none
    | some connector =>
      if connector.connection = CONNECTED then
        some (some (id, connector), [ResourceEvent.getConnector id])
      else
        match fb0_find_connector CONNECTED dev ids with
        | none => none
        | some (found, events) =>
          some (found,
            ResourceEvent.getConnector id :: ResourceEvent.freeConnector id :: events)

/-- The loop of `fb0_find_crtc` over the CRTC ids from index `i` on: the id at
the first index whose bit is set in `possible_crtcs`, 0 when the loop ends.
The C shift `1 << i` is the power of two for `i` up to 30; from 31 on it is not
defined by the C standard and is the mathematical power of two here. -/
def find_crtc_loop (possible_crtcs : Nat) : List Nat → Nat → Nat
  | [], _ => 0
  | crtc :: crtcs, i =>
    if possible_crtcs &&& (1 <<< i) ≠ 0 then crtc
    else find_crtc_loop possible_crtcs crtcs (i + 1)

/-- The function `fb0_find_crtc`: the CRTC id returned and the descriptors
obtained and released.  The source reads `connector->encoders[0]` and the
fields of the encoder without a test, so there is no result when the connector
has no encoder or `drmModeGetEncoder` fails. -/
def fb0_find_crtc (dev : Device) (res : drmModeRes) (connector : drmModeConnector) :
    Option (Nat × List ResourceEvent) :=
  match connector.encoders with
  | [] => none
  | e :: _ =>
    match dev.getEncoder e with
    | none => none
    | some encoder =>
      some (find_crtc_loop encoder.possible_crtcs res.crtcs 0,
        [ResourceEvent.getEncoder e, ResourceEvent.freeEncoder e])

/-- The constant SWAP_INTERVAL of the source. -/
def SWAP_INTERVAL : Int := 1

/-- The outcome of `fb0_init`: return value, the record left, and the libdrm
descriptors obtained and released, in order. -/
structure InitOutcome where
  ret : Int
  fb : drm_framebuffer
  events : List ResourceEvent
  deriving DecidableEq, Repr

/-- The function `fb0_init`.  `prop` is the value of the forced-mode property.
There is no result when libdrm returns a null pointer that the source uses
without a test; the index returned by the mode scan is always inside the mode
array (`find_preferred_mode_get`), so the lookup of the mode never fails.
`ENODEV` is the constant of errno.h and `RGBA_8888` the constant
HAL_PIXEL_FORMAT_RGBA_8888 of the graphics headers. -/
def fb0_init (ENODEV : Int) (CONNECTED PREFERRED : Nat) (RGBA_8888 : Int) (dev : Device)
    (prop : Option (List Char)) (fb : drm_framebuffer) : Option InitOutcome :=
  match dev.resources with
  | none => none
  | some res =>
    match fb0_find_connector CONNECTED dev res.connectors with
    | none => none
    | some (none, ev1) =>
      some { ret := -ENODEV, fb := fb,
             events := ResourceEvent.getResources :: ev1 ++ [ResourceEvent.freeResources] }
    | some (some (id, connector), ev1) =>
      let fb1 := { fb with connector_id := connector.connector_id }
      match fb0_find_crtc dev res connector with
      | none => none
      | some (crtc, ev2) =>
        let fb2 := { fb1 with crtc_id := crtc }
        let ev3 := ResourceEvent.getResources :: ev1 ++ ev2 ++ [ResourceEvent.freeResources]
        if crtc = 0 then
          some { ret := -ENODEV, fb := fb2, events := ev3 }
        else
          match fb0_find_preferred_mode PREFERRED prop connector with
          | none =>
            some { ret := -ENODEV, fb := fb2,
                   events := ev3 ++ [ResourceEvent.freeConnector id] }
          | some i =>
            match connector.modes[i]? with
            | none => none
            | some mode =>
              some { ret := 0,
                     fb := { fb2 with
                       mode := mode, current_fb := 0, next_fb := 0,
                       device := { flags := 0, width := mode.hdisplay, height := mode.vdisplay,
                                   stride := mode.vdisplay, format := RGBA_8888,
                                   minSwapInterval := SWAP_INTERVAL,
                                   maxSwapInterval := SWAP_INTERVAL } },
                     events := ev3 ++ [ResourceEvent.freeConnector id] }

/-! ## Swap interval, format translation and buffer import -/

/-- The function `fb0_set_swap_interval`.  It does not use the device, which
is returned as it is. -/
def fb0_set_swap_interval (EINVAL : Int) (fb : drm_framebuffer) (interval : Int) : Outcome :=
  if interval ≠ SWAP_INTERVAL then
    { ret := -EINVAL, fb := fb, calls := [] }
  else
    { ret := 0, fb := fb, calls := [] }

/-- The function `fb0_composition_complete`. -/
def fb0_composition_complete (fb : drm_framebuffer) : Outcome :=
  { ret := 0, fb := fb, calls := [] }

/-- The pixel format constants of the graphics headers (HAL_PIXEL_FORMAT) and of
drm_fourcc.h (DRM_FORMAT) that the format translator names; their values are
not part of the repository. -/
structure FormatCodes where
  HAL_PIXEL_FORMAT_RGBA_8888 : Nat
  HAL_PIXEL_FORMAT_RGBX_8888 : Nat
  HAL_PIXEL_FORMAT_RGB_888 : Nat
  HAL_PIXEL_FORMAT_RGB_565 : Nat
  HAL_PIXEL_FORMAT_BGRA_8888 : Nat
  DRM_FORMAT_XBGR8888 : Nat
  DRM_FORMAT_BGR888 : Nat
  DRM_FORMAT_BGR565 : Nat
  DRM_FORMAT_ARGB8888 : Nat
  deriving DecidableEq, Repr

/-- The function `convert_android_to_drm_fb_format`.  The switch is the chain
of tests of its case labels in order, which C requires to be distinct. -/
def convert_android_to_drm_fb_format (c : FormatCodes) (format : Nat) : Nat :=
  if format = c.HAL_PIXEL_FORMAT_RGBA_8888 then c.DRM_FORMAT_XBGR8888
  else if format = c.HAL_PIXEL_FORMAT_RGBX_8888 then c.DRM_FORMAT_XBGR8888
  else if format = c.HAL_PIXEL_FORMAT_RGB_888 then c.DRM_FORMAT_BGR888
  else if format = c.HAL_PIXEL_FORMAT_RGB_565 then c.DRM_FORMAT_BGR565
  else if format = c.HAL_PIXEL_FORMAT_BGRA_8888 then c.DRM_FORMAT_ARGB8888
  else 0

/-- A call into libdrm made by the buffer import. -/
inductive ImportCall where
  | drmPrimeFDToHandle (fd : Int) (prime_fd : Int)
  | drmModeAddFB2 (fd : Int) (width height pixel_format : Nat)
      (handles pitches offsets : List Nat) (flags : Nat)
  deriving DecidableEq, Repr

/-- What the kernel answers during one buffer import: the return value of
`drmPrimeFDToHandle` and the handle it stores on success, the return value of
`drmModeAddFB2` and the framebuffer id it stores on success. -/
structure ImportKernel where
  prime_ret : Int
  handle_id : Nat
  addfb_ret : Int
  buf_id : Nat
  deriving DecidableEq, Repr

/-- The function `fb0_add_fb`: the return value, the buffer left and the call
made.  On success `drmModeAddFB2` stores the framebuffer id through the
pointer `(uint32_t*) &handle->data`, the low 32 bits of the slot. -/
def fb0_add_fb (c : FormatCodes) (k : ImportKernel) (fb : drm_framebuffer)
    (handle : gralloc_handle_t) (handle_id : Nat) : Int × gralloc_handle_t × List ImportCall :=
  let call := ImportCall.drmModeAddFB2 fb.fd handle.width handle.height
    (convert_android_to_drm_fb_format c handle.format)
    [handle_id, 0, 0, 0] [handle.stride, 0, 0, 0] [0, 0, 0, 0] 0
  if k.addfb_ret ≠ 0 then
    (k.addfb_ret, handle, [call])
  else
    (k.addfb_ret,
      { handle with data := handle.data / 4294967296 * 4294967296 + k.buf_id % 4294967296 },
      [call])

/-- The function `drm_framebuffer_import`: the buffer left and the calls made.
`buffer` is what `gralloc_handle` returns for the buffer; the source reads
`handle->usage` without a test, so there is no result for the null pointer.
`HW_FB` is the constant GRALLOC_USAGE_HW_FB of the graphics headers. -/
def drm_framebuffer_import (HW_FB : Nat) (c : FormatCodes) (k : ImportKernel)
    (fb : drm_framebuffer) (buffer : Option gralloc_handle_t) :
    Option (gralloc_handle_t × List ImportCall) :=
  match buffer with
  | none => none
  | some handle =>
    if handle.usage &&& HW_FB = 0 then
      some (handle, [])
    else if k.prime_ret ≠ 0 then
      some (handle, [ImportCall.drmPrimeFDToHandle fb.fd handle.prime_fd])
    else
      let r := fb0_add_fb c k fb handle k.handle_id
      some (r.2.1, ImportCall.drmPrimeFDToHandle fb.fd handle.prime_fd :: r.2.2)

/-! ## Properties used to state the claims on initialization and reachability -/

/-- The number of connector descriptors obtained. -/
def connectorGets (events : List ResourceEvent) : Nat :=
  events.countP (fun e => match e with
    | ResourceEvent.getConnector _ => true
    | _ => false)

/-- The number of connector descriptors released. -/
def connectorFrees (events : List ResourceEvent) : Nat :=
  events.countP (fun e => match e with
    | ResourceEvent.freeConnector _ => true
    | _ => false)

/-- The number of encoder descriptors obtained. -/
def encoderGets (events : List ResourceEvent) : Nat :=
  events.countP (fun e => match e with
    | ResourceEvent.getEncoder _ => true
    | _ => false)

/-- The number of encoder descriptors released. -/
def encoderFrees (events : List ResourceEvent) : Nat :=
  events.countP (fun e => match e with
    | ResourceEvent.freeEncoder _ => true
    | _ => false)

/-- The state after a sequence of steps of the scheduler, each with the answers
of the kernel during it. -/
def run (EINVAL EBUSY : Int) : List (Kernel × Step) → drm_framebuffer → drm_framebuffer
  | [], fb => fb
  | (k, s) :: rest, fb => run EINVAL EBUSY rest (step EINVAL EBUSY k fb s).fb

/-- The scheduler state DISABLED of the specification. -/
def DISABLED (fb : drm_framebuffer) : Prop := fb.current_fb = 0

/-- The scheduler state ENABLED of the specification. -/
def ENABLED (fb : drm_framebuffer) : Prop := fb.current_fb ≠ 0 ∧ fb.next_fb = 0

/-- The scheduler state FLIP_PENDING of the specification. -/
def FLIP_PENDING (fb : drm_framebuffer) : Prop := fb.next_fb ≠ 0

/-- The connector has a first encoder and libdrm returns its descriptor. -/
def HasEncoder (dev : Device) (connector : drmModeConnector) : Prop :=
  ∃ e es encoder, connector.encoders = e :: es ∧ dev.getEncoder e = some encoder

/-- A control device with the given connectors, listed and requested by their
connector ids, the CRTC ids `crtcs`, and one encoder, of id 11, with the given
mask of possible CRTCs. -/
def sampleDevice (connectors : List drmModeConnector) (crtcs : List Nat)
    (possible_crtcs : Nat) : Device :=
  { resources := some { connectors := connectors.map (fun c => c.connector_id),
                        crtcs := crtcs },
    getConnector := fun id => connectors.find? (fun c => c.connector_id = id),
    getEncoder := fun id => if id = 11 then some { possible_crtcs := possible_crtcs } else none }

/-- The format constants of the Android and DRM headers. -/
def sampleFormats : FormatCodes :=
  { HAL_PIXEL_FORMAT_RGBA_8888 := 1, HAL_PIXEL_FORMAT_RGBX_8888 := 2,
    HAL_PIXEL_FORMAT_RGB_888 := 3, HAL_PIXEL_FORMAT_RGB_565 := 4,
    HAL_PIXEL_FORMAT_BGRA_8888 := 5,
    DRM_FORMAT_XBGR8888 := 875709016, DRM_FORMAT_BGR888 := 875710274,
    DRM_FORMAT_BGR565 := 909199170, DRM_FORMAT_ARGB8888 := 875713089 }

/-- A disconnected connector of id 21 (connection state 2). -/
def connectorA : drmModeConnector :=
  { connector_id := 21, connection := 2, encoders := [11], modes := modes3,
    mmWidth := 520, mmHeight := 290 }

/-- A connected connector of id 22 (connection state 1). -/
def connectorB : drmModeConnector :=
  { connector_id := 22, connection := 1, encoders := [11], modes := modes3,
    mmWidth := 520, mmHeight := 290 }

/-- A connected connector of id 23. -/
def connectorC : drmModeConnector :=
  { connector_id := 23, connection := 1, encoders := [11], modes := modes3,
    mmWidth := 520, mmHeight := 290 }

/-- The mode list 1280x720, 1920x1080, neither preferred. -/
def modesNoPreferred : List drmModeModeInfo :=
  [ { hdisplay := 1280, vdisplay := 720, vrefresh := 60, type := 64 },
    { hdisplay := 1920, vdisplay := 1080, vrefresh := 60, type := 64 } ]

/-! ## Lemmas on the scheduler -/

theorem toU32_toS32 (n : Nat) : toU32 (toS32 n) = n % 4294967296 := by
  unfold toU32 toS32
  split <;> omega

theorem cached_fb_lt (h : gralloc_handle_t) : cached_fb h < 4294967296 := by
  unfold cached_fb
  omega

theorem toU32_toS32_cached (h : gralloc_handle_t) : toU32 (toS32 (cached_fb h)) = cached_fb h := by
  rw [toU32_toS32]
  exact Nat.mod_eq_of_lt (cached_fb_lt h)

theorem handler_twice (fb : drm_framebuffer) :
    fb0_handle_page_flip (fb0_handle_page_flip fb) = { fb with current_fb := 0, next_fb := 0 } := by
  simp [fb0_handle_page_flip]

theorem iterate_handler_two_add (n : Nat) (fb : drm_framebuffer) :
    Nat.iterate fb0_handle_page_flip (n + 2) fb = { fb with current_fb := 0, next_fb := 0 } := by
  induction n generalizing fb with
  | zero => simp [Nat.iterate, fb0_handle_page_flip]
  | succ n ih =>
    have h := ih (fb0_handle_page_flip fb)
    simp only [Nat.iterate] at h ⊢
    rw [h]
    simp [fb0_handle_page_flip]

/-- What `drmHandleEvent` leaves, by the number of events it dispatches. -/
theorem drmHandleEvent_eq (k : Kernel) (fb : drm_framebuffer) :
    drmHandleEvent k fb =
      if k.flips = 0 then fb
      else if k.flips = 1 then fb0_handle_page_flip fb
      else { fb with current_fb := 0, next_fb := 0 } := by
  unfold drmHandleEvent
  rcases hk : k.flips with _ | _ | n
  · simp [Nat.iterate]
  · simp [Nat.iterate]
  · rw [iterate_handler_two_add]
    simp

/-- Nothing is awaited when no flip is pending. -/
theorem await_idle (k : Kernel) (fb : drm_framebuffer) (h : fb.next_fb = 0) :
    fb0_await_page_flip k fb = (fb, []) := by
  simp [fb0_await_page_flip, h]

/-- A pending flip is drained by one wait, whatever the wait delivers. -/
theorem await_pending (k : Kernel) (fb : drm_framebuffer) (h : fb.next_fb ≠ 0) :
    fb0_await_page_flip k fb =
      ({ fb with current_fb := if k.flips ≤ 1 then fb.next_fb else 0, next_fb := 0 },
        [KernelCall.drmHandleEvent fb.fd]) := by
  unfold fb0_await_page_flip
  rw [drmHandleEvent_eq]
  rcases hk : k.flips with _ | _ | n
  · simp [h]
  · simp [h, fb0_handle_page_flip]
  · simp [h]

/-! ## The page-flip scheduler: Post -/

/-- C1 (as amended): when Post(X) for a nonzero id X returns success and the
first call took the enable path (current_fb = 0) or found X already current,
an immediately following Post(X) returns success, makes no libdrm call and
leaves the whole record unchanged.  When the first call took the flip path
from an ENABLED state with another current buffer, X is only pending
afterwards and the second Post(X) waits for the flip and submits a second
page-flip request for X. -/
theorem post_twice_noop_when_current (EINVAL EBUSY : Int) (k1 k2 : Kernel)
    (fb : drm_framebuffer) (h : gralloc_handle_t)
    (hX : cached_fb h ≠ 0)
    (hok : (fb0_post EINVAL EBUSY k1 fb (some h)).ret = 0) :
    ((fb.current_fb = 0 ∨ fb.current_fb = cached_fb h) →
      fb0_post EINVAL EBUSY k2 (fb0_post EINVAL EBUSY k1 fb (some h)).fb (some h)
        = { ret := 0, fb := (fb0_post EINVAL EBUSY k1 fb (some h)).fb, calls := [] })
    ∧ (fb.current_fb ≠ 0 → fb.current_fb ≠ cached_fb h → fb.next_fb = 0 → k1.ret = 0 →
      (fb0_post EINVAL EBUSY k1 fb (some h)).fb = { fb with next_fb := cached_fb h }
      ∧ (fb0_post EINVAL EBUSY k2 (fb0_post EINVAL EBUSY k1 fb (some h)).fb (some h)).calls
          = [KernelCall.drmHandleEvent fb.fd,
             KernelCall.drmModePageFlip fb.fd fb.crtc_id (cached_fb h)]) := by
  constructor
  · rintro (h0 | hc)
    · have hret : k1.ret = 0 := by
        by_contra hne
        simp [fb0_post, hX, h0, Ne.symm hX, fb0_enable_crtc, hne] at hok
      simp [fb0_post, hX, h0, Ne.symm hX, fb0_enable_crtc, hret]
    · simp [fb0_post, hX, hc]
  · intro hC hne hP hret
    have h1 : (fb0_post EINVAL EBUSY k1 fb (some h)).fb = { fb with next_fb := cached_fb h } := by
      simp [fb0_post, hX, hne, hC, fb0_page_flip, await_idle k1 fb hP, hret, toU32_toS32_cached]
    refine ⟨h1, ?_⟩
    rw [h1]
    simp [fb0_post, hX, hne, hC, fb0_page_flip, await_pending, hret, toU32_toS32_cached]
    split <;> split <;> simp

/-- Witness for C1: Post(2) twice from the DISABLED state. -/
theorem post_twice_noop_when_current_witness :
    cached_fb (sampleBuffer 2) ≠ 0
    ∧ (fb0_post 22 16 ⟨0, 0, 0⟩ (sampleFb 0 0) (some (sampleBuffer 2))).ret = 0
    ∧ fb0_post 22 16 ⟨0, 0, 0⟩
        (fb0_post 22 16 ⟨0, 0, 0⟩ (sampleFb 0 0) (some (sampleBuffer 2))).fb (some (sampleBuffer 2))
      = { ret := 0, fb := sampleFb 2 0, calls := [] } :=
  ⟨by decide, by decide,
    (post_twice_noop_when_current 22 16 ⟨0, 0, 0⟩ ⟨0, 0, 0⟩ (sampleFb 0 0) (sampleBuffer 2)
      (by decide) (by decide)).1 (Or.inl rfl)⟩

/-- Counterexample to C1 as stated: from the ENABLED state (current_fb = 1,
pending_fb = 0) Post(2) succeeds on the flip path, and the second Post(2) waits
for an event, submits another page flip and changes current_fb and pending_fb. -/
theorem post_twice_flip_path_counterexample :
    (fb0_post 22 16 ⟨0, 0, 0⟩ (sampleFb 1 0) (some (sampleBuffer 2)))
      = { ret := 0, fb := sampleFb 1 2, calls := [KernelCall.drmModePageFlip 3 5 2] }
    ∧ (fb0_post 22 16 ⟨1, 0, 0⟩ (sampleFb 1 2) (some (sampleBuffer 2)))
      = { ret := 0, fb := sampleFb 2 2,
          calls := [KernelCall.drmHandleEvent 3, KernelCall.drmModePageFlip 3 5 2] }
    ∧ ¬ ((fb0_post 22 16 ⟨1, 0, 0⟩
            (fb0_post 22 16 ⟨0, 0, 0⟩ (sampleFb 1 0) (some (sampleBuffer 2))).fb
            (some (sampleBuffer 2))).calls = []
          ∧ (fb0_post 22 16 ⟨1, 0, 0⟩
            (fb0_post 22 16 ⟨0, 0, 0⟩ (sampleFb 1 0) (some (sampleBuffer 2))).fb
            (some (sampleBuffer 2))).fb
            = (fb0_post 22 16 ⟨0, 0, 0⟩ (sampleFb 1 0) (some (sampleBuffer 2))).fb) := by
  decide

/-- C2 (the code at the busy answer): from an ENABLED state (current_fb = C,
nothing pending), Post(Y) for another nonzero id Y whose page-flip request the
kernel rejects with errno = EBUSY returns the error EBUSY and resets current_fb
to 0, because the source compares errno with -EBUSY. -/
theorem post_busy_resets_current (EINVAL EBUSY : Int) (k : Kernel)
    (fb : drm_framebuffer) (h : gralloc_handle_t)
    (hE : 0 < EBUSY) (hC : fb.current_fb ≠ 0) (hP : fb.next_fb = 0)
    (hY : cached_fb h ≠ 0) (hne : fb.current_fb ≠ cached_fb h)
    (hfail : k.ret ≠ 0) (hbusy : k.errno = EBUSY) :
    (fb0_post EINVAL EBUSY k fb (some h)).ret = EBUSY
    ∧ (fb0_post EINVAL EBUSY k fb (some h)).fb.current_fb = 0
    ∧ (fb0_post EINVAL EBUSY k fb (some h)).fb.next_fb = 0 := by
  have hneg : EBUSY ≠ -EBUSY := by omega
  simp [fb0_post, hY, hne, hC, fb0_page_flip, await_idle k fb hP, hfail, hneg, hbusy, hP]

/-- Witness for C2: Post(2) in the state (current_fb = 1, pending_fb = 0) with
the page flip answered by -16 and errno = 16. -/
theorem post_busy_resets_current_witness :
    (fb0_post 22 16 ⟨0, -16, 16⟩ (sampleFb 1 0) (some (sampleBuffer 2))).ret = 16
    ∧ (fb0_post 22 16 ⟨0, -16, 16⟩ (sampleFb 1 0) (some (sampleBuffer 2))).fb.current_fb = 0
    ∧ (fb0_post 22 16 ⟨0, -16, 16⟩ (sampleFb 1 0) (some (sampleBuffer 2))).fb.next_fb = 0 :=
  post_busy_resets_current 22 16 ⟨0, -16, 16⟩ (sampleFb 1 0) (sampleBuffer 2)
    (by decide) (by decide) (by decide) (by decide) (by decide) (by decide) (by decide)

/-- C3: in a DISABLED state (current_fb = 0) Post(X) for a nonzero id X makes
exactly one libdrm call, the CRTC enable binding X (no page flip); when the
enable succeeds the result is success and only current_fb changes, to X; when
it fails its return value is returned and the record is unchanged. -/
theorem post_disabled_enables (EINVAL EBUSY : Int) (k : Kernel)
    (fb : drm_framebuffer) (h : gralloc_handle_t)
    (hdis : fb.current_fb = 0) (hX : cached_fb h ≠ 0) :
    (fb0_post EINVAL EBUSY k fb (some h)).calls
      = [KernelCall.drmModeSetCrtc fb.fd fb.crtc_id (cached_fb h) 0 0
          [fb.connector_id] (some fb.mode)]
    ∧ (k.ret = 0 →
        (fb0_post EINVAL EBUSY k fb (some h)).ret = 0
        ∧ (fb0_post EINVAL EBUSY k fb (some h)).fb = { fb with current_fb := cached_fb h })
    ∧ (k.ret ≠ 0 →
        (fb0_post EINVAL EBUSY k fb (some h)).ret = k.ret
        ∧ (fb0_post EINVAL EBUSY k fb (some h)).fb = fb) := by
  refine ⟨?_, ?_, ?_⟩
  · by_cases hr : k.ret = 0 <;>
      simp [fb0_post, hX, hdis, Ne.symm hX, fb0_enable_crtc, hr]
  · intro hr
    simp [fb0_post, hX, hdis, Ne.symm hX, fb0_enable_crtc, hr]
  · intro hr
    simp [fb0_post, hX, hdis, Ne.symm hX, fb0_enable_crtc, hr]

/-- Witness for C3: Post(2) in the initial state, the enable succeeding. -/
theorem post_disabled_enables_witness :
    (sampleFb 0 0).current_fb = 0 ∧ cached_fb (sampleBuffer 2) ≠ 0
    ∧ (fb0_post 22 16 ⟨0, 0, 0⟩ (sampleFb 0 0) (some (sampleBuffer 2))).ret = 0
    ∧ (fb0_post 22 16 ⟨0, 0, 0⟩ (sampleFb 0 0) (some (sampleBuffer 2))).fb = sampleFb 2 0 :=
  ⟨by decide, by decide,
    (post_disabled_enables 22 16 ⟨0, 0, 0⟩ (sampleFb 0 0) (sampleBuffer 2)
      (by decide) (by decide)).2.1 rfl⟩

/-- C4 (as amended): for distinct nonzero ids X and Y, from a DISABLED state
(current_fb = 0) and with both libdrm calls succeeding, Post(X) returns success.
With no flip pending (pending_fb = 0), Post(Y) then returns success, submits
exactly one page-flip request, for Y, and leaves current_fb = X,
pending_fb = Y.  With a flip pending (pending_fb = P, nonzero), Post(Y) first
waits for that flip: it makes one event wait and one page-flip request for Y
and leaves pending_fb = Y with current_fb = P (0 when the wait dispatched more
than one completion event), not X.  In both cases the page-flip handler then
makes current_fb = Y, pending_fb = 0. -/
theorem post_post_then_flip (EINVAL EBUSY : Int) (k1 k2 : Kernel)
    (fb : drm_framebuffer) (hx hy : gralloc_handle_t)
    (hdis : fb.current_fb = 0)
    (hX : cached_fb hx ≠ 0) (hY : cached_fb hy ≠ 0) (hne : cached_fb hx ≠ cached_fb hy)
    (h1 : k1.ret = 0) (h2 : k2.ret = 0) :
    (fb0_post EINVAL EBUSY k1 fb (some hx)).ret = 0
    ∧ (fb.next_fb = 0 →
        fb0_post EINVAL EBUSY k2 (fb0_post EINVAL EBUSY k1 fb (some hx)).fb (some hy)
          = { ret := 0,
              fb := { fb with current_fb := cached_fb hx, next_fb := cached_fb hy },
              calls := [KernelCall.drmModePageFlip fb.fd fb.crtc_id (cached_fb hy)] })
    ∧ (fb.next_fb ≠ 0 →
        fb0_post EINVAL EBUSY k2 (fb0_post EINVAL EBUSY k1 fb (some hx)).fb (some hy)
          = { ret := 0,
              fb := { fb with
                current_fb := if k2.flips ≤ 1 then fb.next_fb else 0,
                next_fb := cached_fb hy },
              calls := [KernelCall.drmHandleEvent fb.fd,
                        KernelCall.drmModePageFlip fb.fd fb.crtc_id (cached_fb hy)] })
    ∧ fb0_handle_page_flip
        (fb0_post EINVAL EBUSY k2 (fb0_post EINVAL EBUSY k1 fb (some hx)).fb (some hy)).fb
        = { fb with current_fb := cached_fb hy, next_fb := 0 } := by
  have e1 : fb0_post EINVAL EBUSY k1 fb (some hx)
      = { ret := 0, fb := { fb with current_fb := cached_fb hx },
          calls := [KernelCall.drmModeSetCrtc fb.fd fb.crtc_id (cached_fb hx) 0 0
            [fb.connector_id] (some fb.mode)] } := by
    simp [fb0_post, hX, hdis, Ne.symm hX, fb0_enable_crtc, h1]
  have e2 : fb.next_fb = 0 →
      fb0_post EINVAL EBUSY k2 { fb with current_fb := cached_fb hx } (some hy)
      = { ret := 0,
          fb := { fb with current_fb := cached_fb hx, next_fb := cached_fb hy },
          calls := [KernelCall.drmModePageFlip fb.fd fb.crtc_id (cached_fb hy)] } := by
    intro hnp
    simp [fb0_post, hY, hne, hX, fb0_page_flip, await_idle, hnp, h2, toU32_toS32_cached]
  have e3 : fb.next_fb ≠ 0 →
      fb0_post EINVAL EBUSY k2 { fb with current_fb := cached_fb hx } (some hy)
      = { ret := 0,
          fb := { fb with
            current_fb := if k2.flips ≤ 1 then fb.next_fb else 0,
            next_fb := cached_fb hy },
          calls := [KernelCall.drmHandleEvent fb.fd,
                    KernelCall.drmModePageFlip fb.fd fb.crtc_id (cached_fb hy)] } := by
    intro hP
    have hP2 : ({ fb with current_fb := cached_fb hx } : drm_framebuffer).next_fb ≠ 0 := hP
    simp [fb0_post, hY, hne, hX, fb0_page_flip, await_pending _ _ hP2, h2, toU32_toS32_cached]
  rw [e1]
  refine ⟨rfl, e2, e3, ?_⟩
  by_cases hP : fb.next_fb = 0
  · simp only [e2 hP]
    simp [fb0_handle_page_flip]
  · simp only [e3 hP]
    simp [fb0_handle_page_flip]

/-- Witness for C4: Post(1), Post(2) and a flip completion from the initial
state; Post(8), Post(9) from the DISABLED state in which the flip of 4 is
pending. -/
theorem post_post_then_flip_witness :
    fb0_post 22 16 ⟨0, 0, 0⟩
        (fb0_post 22 16 ⟨0, 0, 0⟩ (sampleFb 0 0) (some (sampleBuffer 1))).fb
        (some (sampleBuffer 2))
      = { ret := 0, fb := sampleFb 1 2, calls := [KernelCall.drmModePageFlip 3 5 2] }
    ∧ fb0_handle_page_flip
        (fb0_post 22 16 ⟨0, 0, 0⟩
          (fb0_post 22 16 ⟨0, 0, 0⟩ (sampleFb 0 0) (some (sampleBuffer 1))).fb
          (some (sampleBuffer 2))).fb
      = sampleFb 2 0
    ∧ fb0_post 22 16 ⟨1, 0, 0⟩
        (fb0_post 22 16 ⟨0, 0, 0⟩ (sampleFb 0 4) (some (sampleBuffer 8))).fb
        (some (sampleBuffer 9))
      = { ret := 0, fb := sampleFb 4 9,
          calls := [KernelCall.drmHandleEvent 3, KernelCall.drmModePageFlip 3 5 9] } :=
  ⟨(post_post_then_flip 22 16 ⟨0, 0, 0⟩ ⟨0, 0, 0⟩ (sampleFb 0 0) (sampleBuffer 1) (sampleBuffer 2)
      (by decide) (by decide) (by decide) (by decide) (by decide) (by decide)).2.1 rfl,
    (post_post_then_flip 22 16 ⟨0, 0, 0⟩ ⟨0, 0, 0⟩ (sampleFb 0 0) (sampleBuffer 1) (sampleBuffer 2)
      (by decide) (by decide) (by decide) (by decide) (by decide) (by decide)).2.2.2,
    (post_post_then_flip 22 16 ⟨0, 0, 0⟩ ⟨1, 0, 0⟩ (sampleFb 0 4) (sampleBuffer 8) (sampleBuffer 9)
      (by decide) (by decide) (by decide) (by decide) (by decide) (by decide)).2.2.1
      (by decide)⟩

/-- Counterexample to C4 as stated: the state (current_fb = 0, pending_fb = 4)
is DISABLED, and the model reaches it from the initial state by Post(1),
Post(2) and a Post(4) whose event wait dispatches two completion events.  From
it, with every kernel call succeeding, Post(8) enables the CRTC with 8 and
Post(9) waits for the pending flip and submits one page-flip request for 9:
the state is then current_fb = 4, pending_fb = 9, not current_fb = 8. -/
theorem post_post_pending_counterexample :
    run 22 16
        [(⟨0, 0, 0⟩, Step.post (some (sampleBuffer 1))),
         (⟨0, 0, 0⟩, Step.post (some (sampleBuffer 2))),
         (⟨2, 0, 0⟩, Step.post (some (sampleBuffer 4)))] (sampleFb 0 0)
      = sampleFb 0 4
    ∧ (sampleFb 0 4).current_fb = 0
    ∧ (fb0_post 22 16 ⟨0, 0, 0⟩ (sampleFb 0 4) (some (sampleBuffer 8))).ret = 0
    ∧ (fb0_post 22 16 ⟨0, 0, 0⟩ (sampleFb 0 4) (some (sampleBuffer 8))).fb = sampleFb 8 4
    ∧ fb0_post 22 16 ⟨1, 0, 0⟩ (sampleFb 8 4) (some (sampleBuffer 9))
      = { ret := 0, fb := sampleFb 4 9,
          calls := [KernelCall.drmHandleEvent 3, KernelCall.drmModePageFlip 3 5 9] }
    ∧ ¬ ((fb0_post 22 16 ⟨1, 0, 0⟩
            (fb0_post 22 16 ⟨0, 0, 0⟩ (sampleFb 0 4) (some (sampleBuffer 8))).fb
            (some (sampleBuffer 9))).fb.current_fb = 8
          ∧ (fb0_post 22 16 ⟨1, 0, 0⟩
            (fb0_post 22 16 ⟨0, 0, 0⟩ (sampleFb 0 4) (some (sampleBuffer 8))).fb
            (some (sampleBuffer 9))).fb.next_fb = 9) := by
  decide

/-! ## The page-flip scheduler: SetScreenEnabled and the frame of current_fb -/

/-- C5 (as amended): when SetScreenEnabled(false) is called with current_fb
nonzero and the CRTC disable fails, the error is returned; with no flip pending
the record is identical to the one before the call; with a flip pending
(pending_fb = P nonzero) the wait has drained it before the disable is
attempted, so afterwards pending_fb = 0 and current_fb = P (current_fb = 0 when
the wait dispatched more than one completion event). -/
theorem disable_failure_state (k : Kernel) (fb : drm_framebuffer)
    (hC : fb.current_fb ≠ 0) (hfail : k.ret ≠ 0) :
    (fb0_enable_screen k fb 0).ret = k.ret
    ∧ (fb.next_fb = 0 → (fb0_enable_screen k fb 0).fb = fb)
    ∧ (fb.next_fb ≠ 0 →
        (fb0_enable_screen k fb 0).fb
          = { fb with current_fb := if k.flips ≤ 1 then fb.next_fb else 0, next_fb := 0 }) := by
  refine ⟨?_, ?_, ?_⟩
  · simp [fb0_enable_screen, hC, fb0_disable_crtc, hfail]
  · intro hP
    simp [fb0_enable_screen, hC, fb0_disable_crtc, hfail, await_idle k fb hP]
  · intro hP
    simp [fb0_enable_screen, hC, fb0_disable_crtc, hfail, await_pending k fb hP]

/-- Witness for C5: a failing disable in the state (current_fb = 1,
pending_fb = 0) changes nothing. -/
theorem disable_failure_state_witness :
    (sampleFb 1 0).current_fb ≠ 0
    ∧ (fb0_enable_screen ⟨0, -22, 22⟩ (sampleFb 1 0) 0).ret = -22
    ∧ (fb0_enable_screen ⟨0, -22, 22⟩ (sampleFb 1 0) 0).fb = sampleFb 1 0 :=
  ⟨by decide,
    (disable_failure_state ⟨0, -22, 22⟩ (sampleFb 1 0) (by decide) (by decide)).1,
    (disable_failure_state ⟨0, -22, 22⟩ (sampleFb 1 0) (by decide) (by decide)).2.1 rfl⟩

/-- Counterexample to C5 as stated: with a flip pending (current_fb = 1,
pending_fb = 2) a failing disable returns the error and leaves current_fb = 2,
pending_fb = 0, not the state before the call. -/
theorem disable_failure_pending_counterexample :
    fb0_enable_screen ⟨1, -22, 22⟩ (sampleFb 1 2) 0
      = { ret := -22, fb := sampleFb 2 0,
          calls := [KernelCall.drmHandleEvent 3, KernelCall.drmModeSetCrtc 3 5 0 0 0 [] none] }
    ∧ ¬ ((fb0_enable_screen ⟨1, -22, 22⟩ (sampleFb 1 2) 0).fb.current_fb
            = (sampleFb 1 2).current_fb
          ∧ (fb0_enable_screen ⟨1, -22, 22⟩ (sampleFb 1 2) 0).fb.next_fb
            = (sampleFb 1 2).next_fb) := by
  decide

/-- C6: SetScreenEnabled with a true flag, or with current_fb = 0, returns
success, makes no libdrm call and leaves the record unchanged.
SetScreenEnabled(false) with current_fb nonzero first waits for a pending flip
if there is one, then issues the CRTC disable that binds no framebuffer;
afterwards pending_fb = 0, and when the disable succeeds the result is success
with current_fb = 0. -/
theorem enable_screen_spec (k : Kernel) (fb : drm_framebuffer) (enable : Int) :
    ((enable ≠ 0 ∨ fb.current_fb = 0) →
      fb0_enable_screen k fb enable = { ret := 0, fb := fb, calls := [] })
    ∧ (enable = 0 → fb.current_fb ≠ 0 →
        (fb0_enable_screen k fb enable).calls
          = (if fb.next_fb ≠ 0 then [KernelCall.drmHandleEvent fb.fd] else [])
            ++ [KernelCall.drmModeSetCrtc fb.fd fb.crtc_id 0 0 0 [] none]
        ∧ (fb0_enable_screen k fb enable).fb.next_fb = 0
        ∧ (k.ret = 0 →
            (fb0_enable_screen k fb enable).ret = 0
            ∧ (fb0_enable_screen k fb enable).fb.current_fb = 0
            ∧ (fb0_enable_screen k fb enable).fb.next_fb = 0)) := by
  constructor
  · rintro (he | hc)
    · simp [fb0_enable_screen, he]
    · simp [fb0_enable_screen, hc]
  · intro he hC
    subst he
    by_cases hP : fb.next_fb = 0
    · by_cases hr : k.ret = 0 <;>
        simp [fb0_enable_screen, hC, fb0_disable_crtc, await_idle k fb hP, hP, hr]
    · by_cases hr : k.ret = 0 <;>
        simp [fb0_enable_screen, hC, fb0_disable_crtc, await_pending k fb hP, hP, hr]

/-- Witness for C6: disabling the screen while a flip is pending. -/
theorem enable_screen_spec_witness :
    fb0_enable_screen ⟨1, 0, 0⟩ (sampleFb 1 2) 1
      = { ret := 0, fb := sampleFb 1 2, calls := [] }
    ∧ (fb0_enable_screen ⟨1, 0, 0⟩ (sampleFb 1 2) 0).calls
      = [KernelCall.drmHandleEvent 3, KernelCall.drmModeSetCrtc 3 5 0 0 0 [] none]
    ∧ (fb0_enable_screen ⟨1, 0, 0⟩ (sampleFb 1 2) 0).ret = 0
    ∧ (fb0_enable_screen ⟨1, 0, 0⟩ (sampleFb 1 2) 0).fb.current_fb = 0
    ∧ (fb0_enable_screen ⟨1, 0, 0⟩ (sampleFb 1 2) 0).fb.next_fb = 0 :=
  ⟨(enable_screen_spec ⟨1, 0, 0⟩ (sampleFb 1 2) 1).1 (Or.inl (by decide)),
    ((enable_screen_spec ⟨1, 0, 0⟩ (sampleFb 1 2) 0).2 rfl (by decide)).1,
    ((enable_screen_spec ⟨1, 0, 0⟩ (sampleFb 1 2) 0).2 rfl (by decide)).2.2 rfl⟩

/-- C7 (as amended): for every step of the scheduler (Post, SetScreenEnabled,
the page-flip handler) and every kernel answer other than a page-flip request
rejected as busy: if current_fb differs before and after the step, then the
step contains (a) a successful CRTC enable, which sets current_fb to the posted
id, (b) a completion notification, which sets it to the pending_fb it finds,
(c) a successful explicit disable, which sets it to 0, (d) a page-flip request
rejected with another error, which resets it to 0, or (e) a wait that returned
without a notification while a flip was pending, after which it is the former
pending_fb. -/
theorem current_fb_change_causes (EINVAL EBUSY : Int) (k : Kernel)
    (fb : drm_framebuffer) (s : Step)
    (hnb : ¬ FlipBusy EBUSY k (step EINVAL EBUSY k fb s))
    (hch : (step EINVAL EBUSY k fb s).fb.current_fb ≠ fb.current_fb) :
    SpecCause k fb s (step EINVAL EBUSY k fb s)
    ∨ FlipFailed EBUSY k fb s (step EINVAL EBUSY k fb s)
    ∨ ForcedFlip k fb (step EINVAL EBUSY k fb s) := by
  cases s with
  | page_flip_event =>
    left; right; left; left
    exact ⟨rfl, rfl⟩
  | enable_screen enable =>
    by_cases hd : enable = 0 ∧ fb.current_fb ≠ 0
    · obtain ⟨he, hC⟩ := hd
      subst he
      by_cases hr : k.ret = 0
      · left; right; right
        by_cases hP : fb.next_fb = 0
        · refine ⟨rfl, hr, ?_, ?_⟩ <;>
            simp [step, fb0_enable_screen, hC, fb0_disable_crtc, hr, await_idle k fb hP]
        · refine ⟨rfl, hr, ?_, ?_⟩ <;>
            simp [step, fb0_enable_screen, hC, fb0_disable_crtc, hr, await_pending k fb hP]
      · by_cases hP : fb.next_fb = 0
        · exfalso
          apply hch
          simp [step, fb0_enable_screen, hC, fb0_disable_crtc, hr, await_idle k fb hP]
        · have hfb : (step EINVAL EBUSY k fb (Step.enable_screen 0))
              = { ret := k.ret,
                  fb := { fb with current_fb := if k.flips ≤ 1 then fb.next_fb else 0,
                                  next_fb := 0 },
                  calls := [KernelCall.drmHandleEvent fb.fd,
                            KernelCall.drmModeSetCrtc fb.fd fb.crtc_id 0 0 0 [] none] } := by
            simp [step, fb0_enable_screen, hC, fb0_disable_crtc, hr, await_pending k fb hP]
          rw [hfb]
          rcases hk : k.flips with _ | _ | n
          · right; right
            exact ⟨by simp, hk, hP, by simp⟩
          · left; right; left
            right
            exact ⟨by simp, 0, by omega, by simp [Nat.iterate]⟩
          · left; right; left
            right
            exact ⟨by simp, 1, by omega, by simp [Nat.iterate, fb0_handle_page_flip]⟩
    · exfalso
      apply hch
      simp [step, fb0_enable_screen, hd]
  | post buffer =>
    cases buffer with
    | none => exact absurd rfl hch
    | some h =>
      by_cases h0 : cached_fb h = 0
      · exfalso
        apply hch
        simp [step, fb0_post, h0]
      by_cases hcur : fb.current_fb = cached_fb h
      · exfalso
        apply hch
        simp [step, fb0_post, h0, hcur]
      by_cases hC : fb.current_fb = 0
      · -- the enable path
        by_cases hr : k.ret = 0
        · left; left
          refine ⟨h, rfl, hr, ?_, ?_⟩ <;>
            simp [step, fb0_post, h0, hcur, hC, Ne.symm h0, fb0_enable_crtc, hr]
        · exfalso
          apply hch
          simp [step, fb0_post, h0, hcur, hC, Ne.symm h0, fb0_enable_crtc, hr]
      · -- the flip path
        by_cases hr : k.ret = 0
        · -- the request is accepted: only the wait can have changed current_fb
          by_cases hP : fb.next_fb = 0
          · exfalso
            apply hch
            simp [step, fb0_post, h0, hcur, hC, fb0_page_flip, hr, await_idle k fb hP]
          · have hfb : (step EINVAL EBUSY k fb (Step.post (some h)))
                = { ret := 0,
                    fb := { fb with current_fb := if k.flips ≤ 1 then fb.next_fb else 0,
                                    next_fb := cached_fb h },
                    calls := [KernelCall.drmHandleEvent fb.fd,
                              KernelCall.drmModePageFlip fb.fd fb.crtc_id (cached_fb h)] } := by
              simp [step, fb0_post, h0, hcur, hC, fb0_page_flip, hr, await_pending k fb hP,
                toU32_toS32_cached]
            rw [hfb]
            rcases hk : k.flips with _ | _ | n
            · right; right
              exact ⟨by simp, hk, hP, by simp⟩
            · left; right; left
              right
              exact ⟨by simp, 0, by omega, by simp [Nat.iterate]⟩
            · left; right; left
              right
              exact ⟨by simp, 1, by omega, by simp [Nat.iterate, fb0_handle_page_flip]⟩
        · -- the request is rejected
          have hcalls : KernelCall.drmModePageFlip fb.fd fb.crtc_id (cached_fb h)
              ∈ (step EINVAL EBUSY k fb (Step.post (some h))).calls := by
            by_cases hP : fb.next_fb = 0
            · by_cases hm : k.errno = -EBUSY <;>
                simp [step, fb0_post, h0, hcur, hC, fb0_page_flip, hr, hm, toU32_toS32_cached,
                  await_idle k fb hP]
            · by_cases hm : k.errno = -EBUSY <;>
                simp [step, fb0_post, h0, hcur, hC, fb0_page_flip, hr, hm, toU32_toS32_cached,
                  await_pending k fb hP]
          have hne : k.errno ≠ EBUSY := by
            intro hb
            exact hnb ⟨hr, hb, _, _, _, hcalls⟩
          by_cases hm : k.errno = -EBUSY
          · -- current_fb is kept by the request; only the wait can have changed it
            by_cases hP : fb.next_fb = 0
            · exfalso
              apply hch
              simp [step, fb0_post, h0, hcur, hC, fb0_page_flip, hr, hm, await_idle k fb hP]
            · have hfb : (step EINVAL EBUSY k fb (Step.post (some h)))
                  = { ret := k.errno,
                      fb := { fb with current_fb := if k.flips ≤ 1 then fb.next_fb else 0,
                                      next_fb := 0 },
                      calls := [KernelCall.drmHandleEvent fb.fd,
                                KernelCall.drmModePageFlip fb.fd fb.crtc_id (cached_fb h)] } := by
                simp [step, fb0_post, h0, hcur, hC, fb0_page_flip, hr, hm,
                  await_pending k fb hP, toU32_toS32_cached]
              rw [hfb]
              rcases hk : k.flips with _ | _ | n
              · right; right
                exact ⟨by simp, hk, hP, by simp⟩
              · left; right; left
                right
                exact ⟨by simp, 0, by omega, by simp [Nat.iterate]⟩
              · left; right; left
                right
                exact ⟨by simp, 1, by omega, by simp [Nat.iterate, fb0_handle_page_flip]⟩
          · right; left
            refine ⟨h, rfl, hr, hne, hcalls, ?_⟩
            simp [step, fb0_post, h0, hcur, hC, fb0_page_flip, hr, hm]

/-- Witness for C7: a Post whose page-flip request is rejected with EINVAL. -/
theorem current_fb_change_causes_witness :
    FlipFailed 16 ⟨0, -22, 22⟩ (sampleFb 1 0) (Step.post (some (sampleBuffer 2)))
      (step 22 16 ⟨0, -22, 22⟩ (sampleFb 1 0) (Step.post (some (sampleBuffer 2)))) := by
  have hcalls : (step 22 16 ⟨0, -22, 22⟩ (sampleFb 1 0) (Step.post (some (sampleBuffer 2)))).calls
      = [KernelCall.drmModePageFlip 3 5 2] := by decide
  have hnb : ¬ FlipBusy 16 ⟨0, -22, 22⟩
      (step 22 16 ⟨0, -22, 22⟩ (sampleFb 1 0) (Step.post (some (sampleBuffer 2)))) := by
    rintro ⟨_, hb, _⟩
    exact absurd hb (by decide)
  rcases current_fb_change_causes 22 16 ⟨0, -22, 22⟩ (sampleFb 1 0)
      (Step.post (some (sampleBuffer 2))) hnb (by decide) with hs | hf | hw
  · exfalso
    rcases hs with ⟨_, _, hr, _⟩ | hn | ⟨he, _⟩
    · exact absurd hr (by decide)
    · rcases hn with ⟨hp, _⟩ | ⟨hin, _⟩
      · exact absurd hp (by decide)
      · rw [hcalls] at hin
        exact absurd hin (by decide)
    · exact absurd he (by decide)
  · exact hf
  · exfalso
    exact hw.2.2.1 rfl

/-- Counterexample to C7 as stated: in the state (current_fb = 1,
pending_fb = 0) a Post(2) whose page-flip request fails with EINVAL changes
current_fb to 0, although the step holds no successful enable, no completion
notification and no disable: a failed kernel call changes current_fb. -/
theorem current_fb_change_counterexample :
    step 22 16 ⟨0, -22, 22⟩ (sampleFb 1 0) (Step.post (some (sampleBuffer 2)))
      = { ret := 22, fb := sampleFb 0 0, calls := [KernelCall.drmModePageFlip 3 5 2] }
    ∧ (step 22 16 ⟨0, -22, 22⟩ (sampleFb 1 0) (Step.post (some (sampleBuffer 2)))).fb.current_fb
        ≠ (sampleFb 1 0).current_fb
    ∧ ¬ SpecCause ⟨0, -22, 22⟩ (sampleFb 1 0) (Step.post (some (sampleBuffer 2)))
        (step 22 16 ⟨0, -22, 22⟩ (sampleFb 1 0) (Step.post (some (sampleBuffer 2)))) := by
  have hout : step 22 16 ⟨0, -22, 22⟩ (sampleFb 1 0) (Step.post (some (sampleBuffer 2)))
      = { ret := 22, fb := sampleFb 0 0, calls := [KernelCall.drmModePageFlip 3 5 2] } := by
    decide
  refine ⟨hout, by decide, ?_⟩
  rw [hout]
  rintro (⟨_, _, hr, _⟩ | hn | ⟨he, _⟩)
  · exact absurd hr (by decide)
  · rcases hn with ⟨hp, _⟩ | ⟨hin, _⟩
    · exact absurd hp (by decide)
    · exact absurd hin (by decide)
  · exact absurd he (by decide)

/-! ## Mode selection -/

theorem find_mode_loop_cons (PREFERRED : Nat) (v : Forced) (m : drmModeModeInfo)
    (ms : List drmModeModeInfo) (i : Nat) (mode : Option Nat) :
    find_mode_loop PREFERRED v (m :: ms) i mode
      = if breaks PREFERRED v m then some i
        else find_mode_loop PREFERRED v ms (i + 1) (some i) := by
  unfold breaks
  by_cases hv : v.xres ≠ 0 ∧ v.yres ≠ 0
  · rw [find_mode_loop, if_pos hv]
    simp only [if_pos hv]
  · rw [find_mode_loop, if_neg hv]
    simp only [if_neg hv]

/-- When some mode satisfies the break condition, the scan returns the least
index of such a mode. -/
theorem find_mode_loop_first (PREFERRED : Nat) (v : Forced) :
    ∀ (ms : List drmModeModeInfo) (i0 : Nat) (mode : Option Nat),
      (∃ m, m ∈ ms ∧ breaks PREFERRED v m) →
      ∃ i m, find_mode_loop PREFERRED v ms i0 mode = some (i0 + i)
        ∧ ms[i]? = some m ∧ breaks PREFERRED v m
        ∧ ∀ j mj, j < i → ms[j]? = some mj → ¬ breaks PREFERRED v mj := by
  intro ms
  induction ms with
  | nil =>
    rintro _ _ ⟨m, hm, _⟩
    simp at hm
  | cons a ms ih =>
    intro i0 mode hex
    rw [find_mode_loop_cons]
    by_cases ha : breaks PREFERRED v a
    · refine ⟨0, a, by simp [ha], by simp, ha, ?_⟩
      intro j mj hj
      omega
    · have hex2 : ∃ m, m ∈ ms ∧ breaks PREFERRED v m := by
        obtain ⟨m, hm, hb⟩ := hex
        rcases List.mem_cons.mp hm with rfl | hm2
        · exact absurd hb ha
        · exact ⟨m, hm2, hb⟩
      obtain ⟨i, m, hres, hget, hb, hleast⟩ := ih (i0 + 1) (some i0) hex2
      refine ⟨i + 1, m, ?_, by simpa using hget, hb, ?_⟩
      · rw [if_neg ha, hres]
        congr 1
        omega
      · intro j mj hj hgj
        cases j with
        | zero =>
          simp at hgj
          subst hgj
          exact ha
        | succ j =>
          simp at hgj
          exact hleast j mj (by omega) hgj

/-- C8: with a forced mode of width w and height h, both nonzero, and refresh
rate r (0 when the string gives none), and some mode of the connector matching
it, the mode returned is the first in list order whose width is w, whose height
is h and whose refresh rate is r when r is nonzero, whatever the type flags of
the modes are. -/
theorem find_mode_forced_first (PREFERRED : Nat) (prop : Option (List Char))
    (connector : drmModeConnector) (w h r : Nat)
    (hp : forced_mode prop = { xres := w, yres := h, rate := r })
    (hw : w ≠ 0) (hh : h ≠ 0)
    (hex : ∃ m, m ∈ connector.modes
      ∧ m.hdisplay = w ∧ m.vdisplay = h ∧ (r = 0 ∨ m.vrefresh = r)) :
    ∃ i m, fb0_find_preferred_mode PREFERRED prop connector = some i
      ∧ connector.modes[i]? = some m
      ∧ (m.hdisplay = w ∧ m.vdisplay = h ∧ (r = 0 ∨ m.vrefresh = r))
      ∧ ∀ j mj, j < i → connector.modes[j]? = some mj →
          ¬ (mj.hdisplay = w ∧ mj.vdisplay = h ∧ (r = 0 ∨ mj.vrefresh = r)) := by
  have hb : ∀ m, breaks PREFERRED (forced_mode prop) m
      ↔ (m.hdisplay = w ∧ m.vdisplay = h ∧ (r = 0 ∨ m.vrefresh = r)) := by
    intro m
    simp [breaks, hp, hw, hh]
  obtain ⟨m0, hm0, hmatch⟩ := hex
  obtain ⟨i, m, hres, hget, hbm, hleast⟩ :=
    find_mode_loop_first PREFERRED (forced_mode prop) connector.modes 0 none
      ⟨m0, hm0, (hb m0).mpr hmatch⟩
  refine ⟨i, m, ?_, hget, (hb m).mp hbm, ?_⟩
  · simpa [fb0_find_preferred_mode] using hres
  · intro j mj hj hgj hmj
    exact hleast j mj hj hgj ((hb mj).mpr hmj)

/-- Witness for C8: the string 1920x1080 on the list 1280x720, 1920x1080,
3840x2160 selects the mode at index 1, and the string 1920x1080@60 on two
1920x1080 modes of 59 Hz and 60 Hz selects the 60 Hz mode at index 1. -/
theorem find_mode_forced_first_witness :
    fb0_find_preferred_mode 8 (some "1920x1080".toList) (sampleConnector modes3) = some 1
    ∧ fb0_find_preferred_mode 8 (some "1920x1080@60".toList) (sampleConnector modes5960)
        = some 1 := by
  constructor
  · obtain ⟨i, m, hres, hget, ⟨hw, _⟩, _⟩ :=
      find_mode_forced_first 8 (some "1920x1080".toList) (sampleConnector modes3) 1920 1080 0
        (by decide) (by decide) (by decide)
        ⟨⟨1920, 1080, 60, 72⟩, by decide, rfl, rfl, Or.inl rfl⟩
    rw [hres]
    rcases i with _ | _ | _ | i <;> simp [sampleConnector, modes3] at hget <;>
      subst hget <;> simp at hw ⊢
  · obtain ⟨i, m, hres, hget, ⟨_, _, hr⟩, _⟩ :=
      find_mode_forced_first 8 (some "1920x1080@60".toList) (sampleConnector modes5960)
        1920 1080 60 (by decide) (by decide) (by decide)
        ⟨⟨1920, 1080, 60, 64⟩, by decide, rfl, rfl, Or.inr rfl⟩
    rw [hres]
    rcases i with _ | _ | i <;> simp [sampleConnector, modes5960] at hget <;>
      subst hget <;> simp at hr ⊢

/-- C9: with no forced mode (the property is not set, or gives a zero width or
height) and some mode of the connector carrying the preferred flag, the mode
returned is the first in list order whose preferred flag is set. -/
theorem find_mode_preferred_first (PREFERRED : Nat) (prop : Option (List Char))
    (connector : drmModeConnector)
    (hno : (forced_mode prop).xres = 0 ∨ (forced_mode prop).yres = 0)
    (hex : ∃ m, m ∈ connector.modes ∧ m.type &&& PREFERRED ≠ 0) :
    ∃ i m, fb0_find_preferred_mode PREFERRED prop connector = some i
      ∧ connector.modes[i]? = some m
      ∧ m.type &&& PREFERRED ≠ 0
      ∧ ∀ j mj, j < i → connector.modes[j]? = some mj → ¬ (mj.type &&& PREFERRED ≠ 0) := by
  have hb : ∀ m, breaks PREFERRED (forced_mode prop) m ↔ m.type &&& PREFERRED ≠ 0 := by
    intro m
    have hv : ¬ ((forced_mode prop).xres ≠ 0 ∧ (forced_mode prop).yres ≠ 0) := by
      rintro ⟨h1, h2⟩
      rcases hno with h | h
      · exact h1 h
      · exact h2 h
    simp only [breaks, if_neg hv]
  obtain ⟨m0, hm0, hpref⟩ := hex
  obtain ⟨i, m, hres, hget, hbm, hleast⟩ :=
    find_mode_loop_first PREFERRED (forced_mode prop) connector.modes 0 none
      ⟨m0, hm0, (hb m0).mpr hpref⟩
  refine ⟨i, m, ?_, hget, (hb m).mp hbm, ?_⟩
  · simpa [fb0_find_preferred_mode] using hres
  · intro j mj hj hgj hmj
    exact hleast j mj hj hgj ((hb mj).mpr hmj)

/-- Witness for C9: with the property not set, the list 1280x720, 1920x1080
(preferred), 3840x2160 gives the mode at index 1. -/
theorem find_mode_preferred_first_witness :
    fb0_find_preferred_mode 8 none (sampleConnector modes3) = some 1 := by
  obtain ⟨i, m, hres, hget, hpref, _⟩ :=
    find_mode_preferred_first 8 none (sampleConnector modes3) (Or.inl (by decide))
      ⟨⟨1920, 1080, 60, 72⟩, by decide, by decide⟩
  rw [hres]
  rcases i with _ | _ | _ | i
  · simp [sampleConnector, modes3] at hget
    subst hget
    exact absurd (by decide : (64 : Nat) &&& 8 = 0) hpref
  · rfl
  · simp [sampleConnector, modes3] at hget
    subst hget
    exact absurd (by decide : (64 : Nat) &&& 8 = 0) hpref
  · simp [sampleConnector, modes3] at hget

/-! ## The forced-mode string -/

theorem skipSpace_split : ∀ s : List Char,
    ∃ ws, s = ws ++ skipSpace s ∧ ∀ c ∈ ws, isspace c = true := by
  intro s
  induction s with
  | nil => exact ⟨[], by simp [skipSpace], by simp⟩
  | cons a s ih =>
    by_cases ha : isspace a = true
    · obtain ⟨ws, hs, hws⟩ := ih
      refine ⟨a :: ws, ?_, ?_⟩
      · simp only [skipSpace, ha, if_true, List.cons_append]
        rw [← hs]
      · intro c hc
        rcases List.mem_cons.mp hc with rfl | hc2
        · exact ha
        · exact hws c hc2
    · exact ⟨[], by simp [skipSpace, ha], by simp⟩

theorem scanDigits_split : ∀ (s : List Char) (acc : Nat),
    ∃ ds, s = ds ++ (scanDigits s acc).2 ∧ ∀ c ∈ ds, isdigit c = true := by
  intro s
  induction s with
  | nil => intro acc; exact ⟨[], by simp [scanDigits], by simp⟩
  | cons a s ih =>
    intro acc
    by_cases ha : isdigit a = true
    · obtain ⟨ds, hs, hds⟩ := ih (acc * 10 + (a.toNat - 48))
      refine ⟨a :: ds, ?_, ?_⟩
      · simp only [scanDigits, ha, if_true, List.cons_append]
        rw [← hs]
      · intro c hc
        rcases List.mem_cons.mp hc with rfl | hc2
        · exact ha
        · exact hds c hc2
    · exact ⟨[], by simp [scanDigits, ha], by simp⟩

/-- The digits read from an input that starts with a digit. -/
theorem scanDigits_head (d : Char) (s : List Char) (acc : Nat) (hd : isdigit d = true) :
    ∃ ds, ds ≠ [] ∧ d :: s = ds ++ (scanDigits (d :: s) acc).2 ∧ ∀ c ∈ ds, isdigit c = true := by
  obtain ⟨ds, hs, hds⟩ := scanDigits_split s (acc * 10 + (d.toNat - 48))
  refine ⟨d :: ds, by simp, ?_, ?_⟩
  · simp only [scanDigits, hd, if_true, List.cons_append]
    rw [← hs]
  · intro c hc
    rcases List.mem_cons.mp hc with rfl | hc2
    · exact hd
    · exact hds c hc2

/-- What `%d` consumes is the text of a number. -/
theorem scanInt_split (s r : List Char) (v : Int) (h : scanInt s = some (v, r)) :
    ∃ t, s = t ++ r ∧ IsNumberText t := by
  obtain ⟨ws, hs, hws⟩ := skipSpace_split s
  unfold scanInt at h
  cases hsk : skipSpace s with
  | nil => simp [hsk] at h
  | cons c cs =>
    rw [hsk] at h hs
    by_cases hsign : c = '+' ∨ c = '-'
    · simp only [hsign, if_true] at h
      cases cs with
      | nil => simp at h
      | cons d ds =>
        by_cases hd : isdigit d = true
        · simp only [hd, if_true, Option.some.injEq, Prod.mk.injEq] at h
          obtain ⟨dd, hne, hsplit, hdd⟩ := scanDigits_head d ds 0 hd
          rw [h.2] at hsplit
          refine ⟨ws ++ [c] ++ dd, ?_, ws, [c], dd, rfl, hws, ?_, hne, hdd⟩
          · rw [hs, hsplit]
            simp
          · rcases hsign with rfl | rfl
            · exact Or.inr (Or.inl rfl)
            · exact Or.inr (Or.inr rfl)
        · simp [hd] at h
    · simp only [hsign, if_false] at h
      by_cases hd : isdigit c = true
      · simp only [hd, if_true, Option.some.injEq, Prod.mk.injEq] at h
        obtain ⟨dd, hne, hsplit, hdd⟩ := scanDigits_head c cs 0 hd
        rw [h.2] at hsplit
        refine ⟨ws ++ [] ++ dd, ?_, ws, [], dd, rfl, hws, Or.inl rfl, hne, hdd⟩
        rw [hs, hsplit]
        simp
      · simp [hd] at h

/-- The scanner with the format "%dx%d" converts at most two numbers, and two
only from a string that begins with two numbers joined by the letter x. -/
theorem sscanf_dxd_cases (s : List Char) :
    (sscanf fmt_dxd s).length ≤ 2
    ∧ ((sscanf fmt_dxd s).length = 2 → StartsWithDims s) := by
  unfold fmt_dxd
  cases h1 : scanInt s with
  | none => simp [sscanf, h1]
  | some p1 =>
    obtain ⟨a, s1⟩ := p1
    cases s1 with
    | nil => simp [sscanf, h1]
    | cons c s2 =>
      by_cases hc : c = 'x'
      · subst hc
        cases h2 : scanInt s2 with
        | none => simp [sscanf, h1, h2]
        | some p2 =>
          obtain ⟨b, s3⟩ := p2
          refine ⟨by simp [sscanf, h1, h2], fun _ => ?_⟩
          obtain ⟨t1, e1, n1⟩ := scanInt_split s _ a h1
          obtain ⟨t2, e2, n2⟩ := scanInt_split s2 s3 b h2
          exact ⟨t1, t2, s3, by rw [e1, ← e2], n1, n2⟩
      · simp [sscanf, h1, hc]

/-- The scanner with the format "%dx%d@%d" converts two or more numbers only
from a string that begins with two numbers joined by the letter x. -/
theorem sscanf_dxd_at_d_cases (s : List Char) :
    2 ≤ (sscanf fmt_dxd_at_d s).length → StartsWithDims s := by
  unfold fmt_dxd_at_d
  cases h1 : scanInt s with
  | none => simp [sscanf, h1]
  | some p1 =>
    obtain ⟨a, s1⟩ := p1
    cases s1 with
    | nil => simp [sscanf, h1]
    | cons c s2 =>
      by_cases hc : c = 'x'
      · subst hc
        cases h2 : scanInt s2 with
        | none => simp [sscanf, h1, h2]
        | some p2 =>
          obtain ⟨b, s3⟩ := p2
          intro _
          obtain ⟨t1, e1, n1⟩ := scanInt_split s _ a h1
          obtain ⟨t2, e2, n2⟩ := scanInt_split s2 s3 b h2
          exact ⟨t1, t2, s3, by rw [e1, ← e2], n1, n2⟩
      · simp [sscanf, h1, hc]

/-- A string that does not begin with two numbers joined by x forces no mode. -/
theorem forced_mode_malformed (value : List Char) (hbad : ¬ StartsWithDims value) :
    forced_mode (some value) = { xres := 0, yres := 0, rate := 0 } := by
  have h3 : (sscanf fmt_dxd_at_d value).length ≠ 3 := by
    intro h
    exact hbad (sscanf_dxd_at_d_cases value (by omega))
  have h2 : (sscanf fmt_dxd value).length ≠ 2 := fun h => hbad ((sscanf_dxd_cases value).2 h)
  have hle := (sscanf_dxd_cases value).1
  unfold forced_mode property_get
  by_cases hlen : value.length = 0
  · simp [hlen]
  · simp only [ne_eq, hlen, not_false_eq_true, if_true, h3, h2]
    rcases hr : sscanf fmt_dxd value with _ | ⟨a, _ | ⟨b, _ | ⟨c, l⟩⟩⟩
    · simp [store]
    · simp [store]
    · rw [hr] at h2
      simp at h2
    · rw [hr] at hle
      simp at hle

/-- C10 (as amended): for every property value that does not begin with
a number, the letter x and a second number (each number: optional white space,
an optional sign, decimal digits), and for every mode list, the parsed width,
height and refresh rate are zero and the mode returned is the one returned when
the property is not set.  A string that does begin so is not rejected for what
follows the second number. -/
theorem malformed_string_is_no_override (PREFERRED : Nat) (value : List Char)
    (connector : drmModeConnector) (hbad : ¬ StartsWithDims value) :
    forced_mode (some value) = forced_mode none
    ∧ fb0_find_preferred_mode PREFERRED (some value) connector
        = fb0_find_preferred_mode PREFERRED none connector := by
  have h : forced_mode (some value) = forced_mode none := by
    rw [forced_mode_malformed value hbad]
    rfl
  exact ⟨h, by simp only [fb0_find_preferred_mode, h]⟩

/-- Witness for C10: the string 1920*1080 is treated as no override. -/
theorem malformed_string_is_no_override_witness :
    forced_mode (some "1920*1080".toList) = forced_mode none
    ∧ fb0_find_preferred_mode 8 (some "1920*1080".toList) (sampleConnector modesLastPreferred)
        = fb0_find_preferred_mode 8 none (sampleConnector modesLastPreferred) :=
  malformed_string_is_no_override 8 "1920*1080".toList (sampleConnector modesLastPreferred)
    (by
      rintro ⟨t1, t2, rest, hs, _, _⟩
      have hx : 'x' ∈ "1920*1080".toList := by
        rw [hs]
        simp
      exact absurd hx (by decide))

/-- Counterexample to C10 as stated: the strings 1920x1080@ and 1920x1080abc
are not of the documented form, yet they force the mode 1920x1080: on the list
1280x720, 1920x1080, 3840x2160 (preferred) the mode at index 1 is returned,
where no override returns the preferred mode at index 2. -/
theorem malformed_trailing_counterexample :
    forced_mode (some "1920x1080@".toList) = { xres := 1920, yres := 1080, rate := 0 }
    ∧ forced_mode (some "1920x1080abc".toList) = { xres := 1920, yres := 1080, rate := 0 }
    ∧ fb0_find_preferred_mode 8 (some "1920x1080@".toList) (sampleConnector modesLastPreferred)
        = some 1
    ∧ fb0_find_preferred_mode 8 (some "1920x1080abc".toList) (sampleConnector modesLastPreferred)
        = some 1
    ∧ fb0_find_preferred_mode 8 none (sampleConnector modesLastPreferred) = some 2 := by
  decide

/-! ## Lemmas on enumeration and initialization -/

theorem find_connector_cons_connected (CONNECTED : Nat) (dev : Device) (id : Nat)
    (ids : List Nat) (c : drmModeConnector) (hc : dev.getConnector id = some c)
    (hconn : c.connection = CONNECTED) :
    fb0_find_connector CONNECTED dev (id :: ids)
      = some (some (id, c), [ResourceEvent.getConnector id]) := by
  simp [fb0_find_connector, hc, hconn]

theorem find_connector_cons_skip (CONNECTED : Nat) (dev : Device) (id : Nat)
    (ids : List Nat) (c : drmModeConnector) (hc : dev.getConnector id = some c)
    (hconn : c.connection ≠ CONNECTED)
    (found : Option (Nat × drmModeConnector)) (ev : List ResourceEvent)
    (hrest : fb0_find_connector CONNECTED dev ids = some (found, ev)) :
    fb0_find_connector CONNECTED dev (id :: ids)
      = some (found, ResourceEvent.getConnector id :: ResourceEvent.freeConnector id :: ev) := by
  simp [fb0_find_connector, hc, hconn, hrest]

/-- When every id resolves and some connector is connected, the scan returns
the connector at the least index that is connected. -/
theorem find_connector_found (CONNECTED : Nat) (dev : Device) :
    ∀ ids : List Nat,
      (∀ id, id ∈ ids → ∃ c, dev.getConnector id = some c) →
      (∃ id c, id ∈ ids ∧ dev.getConnector id = some c ∧ c.connection = CONNECTED) →
      ∃ (i : Nat) (id : Nat) (c : drmModeConnector) (ev : List ResourceEvent),
        fb0_find_connector CONNECTED dev ids = some (some (id, c), ev)
        ∧ ids[i]? = some id ∧ dev.getConnector id = some c ∧ c.connection = CONNECTED
        ∧ ∀ (j : Nat) (idj : Nat) (cj : drmModeConnector), j < i → ids[j]? = some idj → dev.getConnector idj = some cj →
            cj.connection ≠ CONNECTED := by
  intro ids
  induction ids with
  | nil =>
    rintro _ ⟨id, c, hm, _⟩
    simp at hm
  | cons a ids ih =>
    intro hall hex
    obtain ⟨ca, hca⟩ := hall a (by simp)
    by_cases hconn : ca.connection = CONNECTED
    · refine ⟨0, a, ca, _, find_connector_cons_connected CONNECTED dev a ids ca hca hconn,
        by simp, hca, hconn, ?_⟩
      intro j _ _ hj
      omega
    · have hall2 : ∀ id, id ∈ ids → ∃ c, dev.getConnector id = some c :=
        fun id hid => hall id (List.mem_cons_of_mem a hid)
      have hex2 : ∃ id c, id ∈ ids ∧ dev.getConnector id = some c ∧ c.connection = CONNECTED := by
        obtain ⟨id, c, hm, hc, hcc⟩ := hex
        rcases List.mem_cons.mp hm with rfl | hm2
        · rw [hca] at hc
          cases hc
          exact absurd hcc hconn
        · exact ⟨id, c, hm2, hc, hcc⟩
      obtain ⟨i, id, c, ev, hres, hget, hc, hcc, hleast⟩ := ih hall2 hex2
      refine ⟨i + 1, id, c, _,
        find_connector_cons_skip CONNECTED dev a ids ca hca hconn _ _ hres,
        by simpa using hget, hc, hcc, ?_⟩
      intro j idj cj hj hgj hcj
      cases j with
      | zero =>
        simp at hgj
        subst hgj
        rw [hca] at hcj
        cases hcj
        exact hconn
      | succ j =>
        simp at hgj
        exact hleast j idj cj (by omega) hgj hcj

/-- When every id resolves and no connector is connected, the scan returns the
null pointer. -/
theorem find_connector_none (CONNECTED : Nat) (dev : Device) :
    ∀ ids : List Nat,
      (∀ id, id ∈ ids → ∃ c, dev.getConnector id = some c) →
      (∀ id c, id ∈ ids → dev.getConnector id = some c → c.connection ≠ CONNECTED) →
      ∃ ev, fb0_find_connector CONNECTED dev ids = some (none, ev) := by
  intro ids
  induction ids with
  | nil => intro _ _; exact ⟨[], rfl⟩
  | cons a ids ih =>
    intro hall hno
    obtain ⟨ca, hca⟩ := hall a (by simp)
    obtain ⟨ev, hev⟩ := ih (fun id hid => hall id (List.mem_cons_of_mem a hid))
      (fun id c hid hc => hno id c (List.mem_cons_of_mem a hid) hc)
    exact ⟨_, find_connector_cons_skip CONNECTED dev a ids ca hca
      (hno a ca (by simp) hca) _ _ hev⟩

/-- The scan releases every connector descriptor it obtains except the one it
returns, and touches no encoder. -/
theorem find_connector_counts (CONNECTED : Nat) (dev : Device) :
    ∀ (ids : List Nat) (found : Option (Nat × drmModeConnector)) (ev : List ResourceEvent),
      fb0_find_connector CONNECTED dev ids = some (found, ev) →
      connectorGets ev = connectorFrees ev + (if found.isSome then 1 else 0)
        ∧ encoderGets ev = 0 ∧ encoderFrees ev = 0 := by
  intro ids
  induction ids with
  | nil =>
    intro found ev h
    simp [fb0_find_connector] at h
    obtain ⟨rfl, rfl⟩ := h
    simp [connectorGets, connectorFrees, encoderGets, encoderFrees]
  | cons a ids ih =>
    intro found ev h
    cases hca : dev.getConnector a with
    | none => simp [fb0_find_connector, hca] at h
    | some ca =>
      by_cases hconn : ca.connection = CONNECTED
      · rw [find_connector_cons_connected CONNECTED dev a ids ca hca hconn] at h
        simp at h
        obtain ⟨rfl, rfl⟩ := h
        simp [connectorGets, connectorFrees, encoderGets, encoderFrees]
      · cases hrest : fb0_find_connector CONNECTED dev ids with
        | none => simp [fb0_find_connector, hca, hconn, hrest] at h
        | some p =>
          obtain ⟨found2, ev2⟩ := p
          rw [find_connector_cons_skip CONNECTED dev a ids ca hca hconn _ _ hrest] at h
          simp at h
          obtain ⟨rfl, rfl⟩ := h
          obtain ⟨h1, h2, h3⟩ := ih found2 ev2 hrest
          simp only [connectorGets, connectorFrees, encoderGets, encoderFrees] at h1 h2 h3 ⊢
          simp [List.countP_cons, h1, h2, h3]
          omega

/-- When some bit below the number of CRTCs is set, the loop returns the CRTC
id at the least index whose bit is set. -/
theorem find_crtc_loop_first (mask : Nat) :
    ∀ (crtcs : List Nat) (i0 : Nat),
      (∃ i, i < crtcs.length ∧ mask &&& (1 <<< (i0 + i)) ≠ 0) →
      ∃ (i : Nat) (crtc : Nat), find_crtc_loop mask crtcs i0 = crtc
        ∧ crtcs[i]? = some crtc ∧ mask &&& (1 <<< (i0 + i)) ≠ 0
        ∧ ∀ j, j < i → mask &&& (1 <<< (i0 + j)) = 0 := by
  intro crtcs
  induction crtcs with
  | nil =>
    rintro _ ⟨i, hi, _⟩
    simp at hi
  | cons a crtcs ih =>
    intro i0 hex
    by_cases hb : mask &&& (1 <<< i0) ≠ 0
    · refine ⟨0, a, by simp [find_crtc_loop, hb], by simp, by simpa using hb, ?_⟩
      intro j hj
      omega
    · have hex2 : ∃ i, i < crtcs.length ∧ mask &&& (1 <<< (i0 + 1 + i)) ≠ 0 := by
        obtain ⟨i, hi, hbit⟩ := hex
        cases i with
        | zero => exact absurd (by simpa using hbit) hb
        | succ i =>
          refine ⟨i, by simpa using hi, ?_⟩
          have e : i0 + 1 + i = i0 + (i + 1) := by omega
          rw [e]
          exact hbit
      obtain ⟨i, crtc, hres, hget, hbit, hleast⟩ := ih (i0 + 1) hex2
      have e : i0 + 1 + i = i0 + (i + 1) := by omega
      refine ⟨i + 1, crtc, ?_, by simpa using hget, by rw [← e]; exact hbit, ?_⟩
      · simp only [find_crtc_loop, hb, if_false]
        exact hres
      · intro j hj
        cases j with
        | zero => simpa using hb
        | succ j =>
          have e2 : i0 + (j + 1) = i0 + 1 + j := by omega
          rw [e2]
          exact hleast j (by omega)

/-- When no bit below the number of CRTCs is set, the loop returns 0. -/
theorem find_crtc_loop_none (mask : Nat) :
    ∀ (crtcs : List Nat) (i0 : Nat),
      (∀ i, i < crtcs.length → mask &&& (1 <<< (i0 + i)) = 0) →
      find_crtc_loop mask crtcs i0 = 0 := by
  intro crtcs
  induction crtcs with
  | nil => intro _ _; rfl
  | cons a crtcs ih =>
    intro i0 hno
    have h0 : mask &&& (1 <<< i0) = 0 := by simpa using hno 0 (by simp)
    simp only [find_crtc_loop, h0, ne_eq, not_true_eq_false, if_false]
    apply ih
    intro i hi
    have e : i0 + 1 + i = i0 + (i + 1) := by omega
    rw [e]
    exact hno (i + 1) (by simpa using hi)

/-- The index that the mode scan returns is the one it was handed or lies in
the part of the array it scanned. -/
theorem find_mode_loop_range (PREFERRED : Nat) (v : Forced) :
    ∀ (ms : List drmModeModeInfo) (i0 : Nat) (mode : Option Nat) (i : Nat),
      find_mode_loop PREFERRED v ms i0 mode = some i →
      mode = some i ∨ (i0 ≤ i ∧ i < i0 + ms.length) := by
  intro ms
  induction ms with
  | nil =>
    intro i0 mode i h
    left
    simpa [find_mode_loop] using h
  | cons a ms ih =>
    intro i0 mode i h
    rw [find_mode_loop_cons] at h
    right
    by_cases ha : breaks PREFERRED v a
    · rw [if_pos ha] at h
      cases h
      simp
    · rw [if_neg ha] at h
      rcases ih (i0 + 1) (some i0) i h with h1 | ⟨h1, h2⟩
      · cases h1
        simp
      · simp only [List.length_cons]
        omega

/-- When no mode satisfies the break condition, the scan ends on the last mode
it visited. -/
theorem find_mode_loop_fallthrough (PREFERRED : Nat) (v : Forced) :
    ∀ (ms : List drmModeModeInfo) (i0 : Nat) (mode : Option Nat),
      (∀ m, m ∈ ms → ¬ breaks PREFERRED v m) →
      find_mode_loop PREFERRED v ms i0 mode
        = if ms = [] then mode else some (i0 + ms.length - 1) := by
  intro ms
  induction ms with
  | nil => intro i0 mode _; simp [find_mode_loop]
  | cons a ms ih =>
    intro i0 mode hno
    rw [find_mode_loop_cons, if_neg (hno a (by simp)),
      ih (i0 + 1) (some i0) (fun m hm => hno m (List.mem_cons_of_mem a hm))]
    by_cases hms : ms = []
    · simp [hms]
    · have hlen : 0 < ms.length := List.length_pos.mpr hms
      simp only [hms, if_false, List.length_cons]
      congr 1
      omega

/-- A scan that was handed a mode does not return the null pointer. -/
theorem find_mode_loop_some (PREFERRED : Nat) (v : Forced) :
    ∀ (ms : List drmModeModeInfo) (i0 : Nat) (x : Nat),
      find_mode_loop PREFERRED v ms i0 (some x) ≠ none := by
  intro ms
  induction ms with
  | nil => intro i0 x; simp [find_mode_loop]
  | cons a ms ih =>
    intro i0 x
    rw [find_mode_loop_cons]
    by_cases ha : breaks PREFERRED v a
    · simp [ha]
    · rw [if_neg ha]
      exact ih (i0 + 1) i0

/-- The mode scan returns the null pointer exactly for the empty mode list. -/
theorem find_preferred_mode_none_iff (PREFERRED : Nat) (prop : Option (List Char))
    (connector : drmModeConnector) :
    fb0_find_preferred_mode PREFERRED prop connector = none ↔ connector.modes = [] := by
  unfold fb0_find_preferred_mode
  cases hms : connector.modes with
  | nil => simp [find_mode_loop]
  | cons a ms =>
    rw [find_mode_loop_cons]
    by_cases ha : breaks PREFERRED (forced_mode prop) a
    · simp [ha]
    · rw [if_neg ha]
      simp
      exact find_mode_loop_some PREFERRED (forced_mode prop) ms 1 0

/-- The index that `fb0_find_preferred_mode` returns is inside the mode array. -/
theorem find_preferred_mode_get (PREFERRED : Nat) (prop : Option (List Char))
    (connector : drmModeConnector) (i : Nat)
    (h : fb0_find_preferred_mode PREFERRED prop connector = some i) :
    ∃ mode, connector.modes[i]? = some mode := by
  unfold fb0_find_preferred_mode at h
  rcases find_mode_loop_range PREFERRED (forced_mode prop) connector.modes 0 none i h with
    h1 | ⟨_, h2⟩
  · cases h1
  · have hlt : i < connector.modes.length := by omega
    exact ⟨connector.modes[i], by simp [hlt]⟩

/-- The return path of `fb0_init` when no connector is found. -/
theorem init_no_connector (ENODEV : Int) (CONNECTED PREFERRED : Nat) (RGBA_8888 : Int)
    (dev : Device) (res : drmModeRes) (prop : Option (List Char)) (fb : drm_framebuffer)
    (ev1 : List ResourceEvent)
    (hres : dev.resources = some res)
    (hfc : fb0_find_connector CONNECTED dev res.connectors = some (none, ev1)) :
    fb0_init ENODEV CONNECTED PREFERRED RGBA_8888 dev prop fb
      = some { ret := -ENODEV, fb := fb,
               events := ResourceEvent.getResources :: ev1 ++ [ResourceEvent.freeResources] } := by
  simp [fb0_init, hres, hfc]

/-- The return path of `fb0_init` when no CRTC is found. -/
theorem init_no_crtc (ENODEV : Int) (CONNECTED PREFERRED : Nat) (RGBA_8888 : Int)
    (dev : Device) (res : drmModeRes) (prop : Option (List Char)) (fb : drm_framebuffer)
    (id : Nat) (c : drmModeConnector) (ev1 ev2 : List ResourceEvent)
    (hres : dev.resources = some res)
    (hfc : fb0_find_connector CONNECTED dev res.connectors = some (some (id, c), ev1))
    (hcr : fb0_find_crtc dev res c = some (0, ev2)) :
    fb0_init ENODEV CONNECTED PREFERRED RGBA_8888 dev prop fb
      = some { ret := -ENODEV,
               fb := { fb with connector_id := c.connector_id, crtc_id := 0 },
               events := ResourceEvent.getResources :: ev1 ++ ev2
                 ++ [ResourceEvent.freeResources] } := by
  simp [fb0_init, hres, hfc, hcr]

/-- The return path of `fb0_init` when the mode list is empty. -/
theorem init_no_mode (ENODEV : Int) (CONNECTED PREFERRED : Nat) (RGBA_8888 : Int)
    (dev : Device) (res : drmModeRes) (prop : Option (List Char)) (fb : drm_framebuffer)
    (id : Nat) (c : drmModeConnector) (ev1 ev2 : List ResourceEvent) (crtc : Nat)
    (hres : dev.resources = some res)
    (hfc : fb0_find_connector CONNECTED dev res.connectors = some (some (id, c), ev1))
    (hcr : fb0_find_crtc dev res c = some (crtc, ev2)) (hne : crtc ≠ 0)
    (hm : fb0_find_preferred_mode PREFERRED prop c = none) :
    fb0_init ENODEV CONNECTED PREFERRED RGBA_8888 dev prop fb
      = some { ret := -ENODEV,
               fb := { fb with connector_id := c.connector_id, crtc_id := crtc },
               events := ResourceEvent.getResources :: ev1 ++ ev2
                 ++ [ResourceEvent.freeResources] ++ [ResourceEvent.freeConnector id] } := by
  simp [fb0_init, hres, hfc, hcr, hne, hm]

/-- The return path of `fb0_init` when a mode is selected. -/
theorem init_success (ENODEV : Int) (CONNECTED PREFERRED : Nat) (RGBA_8888 : Int)
    (dev : Device) (res : drmModeRes) (prop : Option (List Char)) (fb : drm_framebuffer)
    (id : Nat) (c : drmModeConnector) (ev1 ev2 : List ResourceEvent) (crtc i : Nat)
    (mode : drmModeModeInfo)
    (hres : dev.resources = some res)
    (hfc : fb0_find_connector CONNECTED dev res.connectors = some (some (id, c), ev1))
    (hcr : fb0_find_crtc dev res c = some (crtc, ev2)) (hne : crtc ≠ 0)
    (hm : fb0_find_preferred_mode PREFERRED prop c = some i)
    (hget : c.modes[i]? = some mode) :
    fb0_init ENODEV CONNECTED PREFERRED RGBA_8888 dev prop fb
      = some { ret := 0,
               fb := { fb with
                 connector_id := c.connector_id, crtc_id := crtc,
                 mode := mode, current_fb := 0, next_fb := 0,
                 device := { flags := 0, width := mode.hdisplay, height := mode.vdisplay,
                             stride := mode.vdisplay, format := RGBA_8888,
                             minSwapInterval := SWAP_INTERVAL,
                             maxSwapInterval := SWAP_INTERVAL } },
               events := ResourceEvent.getResources :: ev1 ++ ev2
                 ++ [ResourceEvent.freeResources] ++ [ResourceEvent.freeConnector id] } := by
  simp [fb0_init, hres, hfc, hcr, hne, hm, hget]

/-- Once a connector is found and its encoder resolves, `fb0_init` returns, and
the record it leaves holds the id of that connector. -/
theorem init_records_connector (ENODEV : Int) (CONNECTED PREFERRED : Nat) (RGBA_8888 : Int)
    (dev : Device) (res : drmModeRes) (prop : Option (List Char)) (fb : drm_framebuffer)
    (id : Nat) (c : drmModeConnector) (ev1 : List ResourceEvent)
    (hres : dev.resources = some res)
    (hfc : fb0_find_connector CONNECTED dev res.connectors = some (some (id, c), ev1))
    (henc : HasEncoder dev c) :
    ∃ out, fb0_init ENODEV CONNECTED PREFERRED RGBA_8888 dev prop fb = some out
      ∧ out.fb.connector_id = c.connector_id := by
  obtain ⟨e, es, encoder, he, hge⟩ := henc
  have hcr : fb0_find_crtc dev res c
      = some (find_crtc_loop encoder.possible_crtcs res.crtcs 0,
          [ResourceEvent.getEncoder e, ResourceEvent.freeEncoder e]) := by
    simp [fb0_find_crtc, he, hge]
  by_cases h0 : find_crtc_loop encoder.possible_crtcs res.crtcs 0 = 0
  · rw [h0] at hcr
    exact ⟨_, init_no_crtc ENODEV CONNECTED PREFERRED RGBA_8888 dev res prop fb id c _ _
      hres hfc hcr, rfl⟩
  · cases hm : fb0_find_preferred_mode PREFERRED prop c with
    | none =>
      exact ⟨_, init_no_mode ENODEV CONNECTED PREFERRED RGBA_8888 dev res prop fb id c _ _ _
        hres hfc hcr h0 hm, rfl⟩
    | some i =>
      obtain ⟨mode, hget⟩ := find_preferred_mode_get PREFERRED prop c i hm
      exact ⟨_, init_success ENODEV CONNECTED PREFERRED RGBA_8888 dev res prop fb id c _ _ _ i
        mode hres hfc hcr h0 hm hget, rfl⟩

/-! ## Display enumeration -/

/-- C11: for every connector list whose descriptors libdrm returns: when some
connector is connected, the enumerator returns the connector at the least index
whose state is connected, and initialization (when the connector has an encoder
whose descriptor libdrm returns) leaves the id of that connector in the record;
when no connector is connected, the empty list included, the enumerator returns
the null pointer and initialization fails with -ENODEV, the record unchanged. -/
theorem init_first_connected (ENODEV : Int) (CONNECTED PREFERRED : Nat) (RGBA_8888 : Int)
    (dev : Device) (res : drmModeRes) (prop : Option (List Char)) (fb : drm_framebuffer)
    (hres : dev.resources = some res)
    (hall : ∀ id, id ∈ res.connectors → ∃ c, dev.getConnector id = some c) :
    ((∃ id c, id ∈ res.connectors ∧ dev.getConnector id = some c
        ∧ c.connection = CONNECTED) →
      ∃ (i : Nat) (id : Nat) (c : drmModeConnector) (ev : List ResourceEvent),
        fb0_find_connector CONNECTED dev res.connectors = some (some (id, c), ev)
        ∧ res.connectors[i]? = some id ∧ dev.getConnector id = some c
        ∧ c.connection = CONNECTED
        ∧ (∀ (j : Nat) (idj : Nat) (cj : drmModeConnector), j < i →
            res.connectors[j]? = some idj → dev.getConnector idj = some cj →
            cj.connection ≠ CONNECTED)
        ∧ (HasEncoder dev c →
            ∃ out, fb0_init ENODEV CONNECTED PREFERRED RGBA_8888 dev prop fb = some out
              ∧ out.fb.connector_id = c.connector_id))
    ∧ ((∀ id c, id ∈ res.connectors → dev.getConnector id = some c →
          c.connection ≠ CONNECTED) →
      (∃ ev, fb0_find_connector CONNECTED dev res.connectors = some (none, ev))
      ∧ ∃ out, fb0_init ENODEV CONNECTED PREFERRED RGBA_8888 dev prop fb = some out
          ∧ out.ret = -ENODEV ∧ out.fb = fb) := by
  constructor
  · intro hex
    obtain ⟨i, id, c, ev, hfc, hget, hc, hcc, hleast⟩ :=
      find_connector_found CONNECTED dev res.connectors hall hex
    exact ⟨i, id, c, ev, hfc, hget, hc, hcc, hleast, fun henc =>
      init_records_connector ENODEV CONNECTED PREFERRED RGBA_8888 dev res prop fb id c ev
        hres hfc henc⟩
  · intro hno
    obtain ⟨ev, hfc⟩ := find_connector_none CONNECTED dev res.connectors hall hno
    exact ⟨⟨ev, hfc⟩, _,
      init_no_connector ENODEV CONNECTED PREFERRED RGBA_8888 dev res prop fb ev hres hfc,
      rfl, rfl⟩

/-- Witness for C11: of the connectors 21 (disconnected), 22 and 23 (connected)
initialization records 22; with the connector 21 alone it fails with -19. -/
theorem init_first_connected_witness :
    (∃ out, fb0_init 19 1 8 1 (sampleDevice [connectorA, connectorB, connectorC] [5, 6] 2)
        none (sampleFb 0 0) = some out ∧ out.fb.connector_id = 22)
    ∧ (∃ out, fb0_init 19 1 8 1 (sampleDevice [connectorA] [5, 6] 2) none (sampleFb 0 0)
        = some out ∧ out.ret = -19 ∧ out.fb = sampleFb 0 0) := by
  constructor
  · have h := (init_first_connected 19 1 8 1
      (sampleDevice [connectorA, connectorB, connectorC] [5, 6] 2)
      { connectors := [21, 22, 23], crtcs := [5, 6] } none (sampleFb 0 0) rfl
      (by
        intro id hid
        simp only [List.mem_cons, List.mem_singleton, List.not_mem_nil, or_false] at hid
        rcases hid with rfl | rfl | rfl <;> exact ⟨_, rfl⟩)).1
      ⟨22, connectorB, by decide, rfl, rfl⟩
    obtain ⟨i, id, c, ev, hfc, _, _, _, _, hinit⟩ := h
    have hval : fb0_find_connector 1 (sampleDevice [connectorA, connectorB, connectorC] [5, 6] 2)
        [21, 22, 23]
        = some (some (22, connectorB),
            [ResourceEvent.getConnector 21, ResourceEvent.freeConnector 21,
             ResourceEvent.getConnector 22]) := by decide
    rw [hval] at hfc
    simp only [Option.some.injEq, Prod.mk.injEq] at hfc
    obtain ⟨⟨_, hc⟩, _⟩ := hfc
    subst hc
    exact hinit ⟨11, [], ⟨2⟩, rfl, rfl⟩
  · exact ((init_first_connected 19 1 8 1 (sampleDevice [connectorA] [5, 6] 2)
      { connectors := [21], crtcs := [5, 6] } none (sampleFb 0 0) rfl
      (by
        intro id hid
        simp only [List.mem_singleton] at hid
        subst hid
        exact ⟨_, rfl⟩)).2
      (by
        intro id c hid hc
        simp only [List.mem_singleton] at hid
        subst hid
        have hc2 : c = connectorA := by
          have : some connectorA = some c := hc
          exact (Option.some.inj this).symm
        subst hc2
        decide)).2

/-- C12: for an encoder mask and a CRTC list of at most 31 ids: when some bit
below the length of the list is set in the mask, the enumerator returns the
CRTC id at the least index whose bit is set; when the mask is empty, or no bit
below the length is set, it returns 0 and initialization fails with -ENODEV. -/
theorem find_crtc_lowest_bit (ENODEV : Int) (CONNECTED PREFERRED : Nat) (RGBA_8888 : Int)
    (dev : Device) (res : drmModeRes) (prop : Option (List Char)) (fb : drm_framebuffer)
    (connector : drmModeConnector) (e : Nat) (es : List Nat) (encoder : drmModeEncoder)
    (he : connector.encoders = e :: es) (hge : dev.getEncoder e = some encoder)
    (_hlen : res.crtcs.length ≤ 31) :
    ((∃ i, i < res.crtcs.length ∧ encoder.possible_crtcs &&& (1 <<< i) ≠ 0) →
      ∃ (i : Nat) (crtc : Nat),
        fb0_find_crtc dev res connector
          = some (crtc, [ResourceEvent.getEncoder e, ResourceEvent.freeEncoder e])
        ∧ res.crtcs[i]? = some crtc
        ∧ encoder.possible_crtcs &&& (1 <<< i) ≠ 0
        ∧ ∀ j, j < i → encoder.possible_crtcs &&& (1 <<< j) = 0)
    ∧ ((encoder.possible_crtcs = 0
          ∨ ∀ i, i < res.crtcs.length → encoder.possible_crtcs &&& (1 <<< i) = 0) →
      fb0_find_crtc dev res connector
        = some (0, [ResourceEvent.getEncoder e, ResourceEvent.freeEncoder e])
      ∧ ∀ id ev1, dev.resources = some res →
          fb0_find_connector CONNECTED dev res.connectors = some (some (id, connector), ev1) →
          ∃ out, fb0_init ENODEV CONNECTED PREFERRED RGBA_8888 dev prop fb = some out
            ∧ out.ret = -ENODEV) := by
  have hcr : fb0_find_crtc dev res connector
      = some (find_crtc_loop encoder.possible_crtcs res.crtcs 0,
          [ResourceEvent.getEncoder e, ResourceEvent.freeEncoder e]) := by
    simp [fb0_find_crtc, he, hge]
  constructor
  · intro hex
    obtain ⟨i, crtc, hres, hget, hbit, hleast⟩ :=
      find_crtc_loop_first encoder.possible_crtcs res.crtcs 0
        (by simpa using hex)
    refine ⟨i, crtc, by rw [hcr, hres], hget, by simpa using hbit, ?_⟩
    intro j hj
    simpa using hleast j hj
  · intro hno
    have hclear : ∀ i, i < res.crtcs.length → encoder.possible_crtcs &&& (1 <<< (0 + i)) = 0 := by
      intro i hi
      rcases hno with h0 | hall
      · rw [h0]
        exact Nat.zero_and _
      · simpa using hall i hi
    have h0 := find_crtc_loop_none encoder.possible_crtcs res.crtcs 0 hclear
    rw [h0] at hcr
    refine ⟨hcr, ?_⟩
    intro id ev1 hres hfc
    exact ⟨_, init_no_crtc ENODEV CONNECTED PREFERRED RGBA_8888 dev res prop fb id connector
      ev1 _ hres hfc hcr, rfl⟩

/-- Witness for C12: with the CRTC ids 5, 6, 7 and the mask 6 (bits 1 and 2) the
enumerator returns 6; with the mask 0 it returns 0. -/
theorem find_crtc_lowest_bit_witness :
    fb0_find_crtc (sampleDevice [connectorB] [5, 6, 7] 6)
        { connectors := [22], crtcs := [5, 6, 7] } connectorB
      = some (6, [ResourceEvent.getEncoder 11, ResourceEvent.freeEncoder 11])
    ∧ fb0_find_crtc (sampleDevice [connectorB] [5, 6, 7] 0)
        { connectors := [22], crtcs := [5, 6, 7] } connectorB
      = some (0, [ResourceEvent.getEncoder 11, ResourceEvent.freeEncoder 11]) := by
  constructor
  · obtain ⟨i, crtc, hres, hget, hbit, hleast⟩ :=
      (find_crtc_lowest_bit 19 1 8 1 (sampleDevice [connectorB] [5, 6, 7] 6)
        { connectors := [22], crtcs := [5, 6, 7] } none (sampleFb 0 0) connectorB 11 []
        ⟨6⟩ rfl rfl (by decide)).1 ⟨1, by decide, by decide⟩
    rw [hres]
    rcases i with _ | _ | _ | i
    · exact absurd (by decide : (6 : Nat) &&& (1 <<< 0) = 0) hbit
    · simp at hget
      rw [hget]
    · exact absurd (hleast 1 (by omega)) (by decide)
    · simp at hget
  · exact ((find_crtc_lowest_bit 19 1 8 1 (sampleDevice [connectorB] [5, 6, 7] 0)
      { connectors := [22], crtcs := [5, 6, 7] } none (sampleFb 0 0) connectorB 11 []
      ⟨0⟩ rfl rfl (by decide)).2 (Or.inl rfl)).1

/-! ## Format translation, swap interval and buffer import -/

/-- C13: with the five case labels distinct and the four wire formats nonzero,
the format translator maps RGBA_8888 and RGBX_8888 to XBGR8888, RGB_888 to
BGR888, RGB_565 to BGR565, BGRA_8888 to ARGB8888 and every other code to 0; its
result is nonzero exactly for the five inputs. -/
theorem convert_format_table (c : FormatCodes)
    (hd : [c.HAL_PIXEL_FORMAT_RGBA_8888, c.HAL_PIXEL_FORMAT_RGBX_8888,
           c.HAL_PIXEL_FORMAT_RGB_888, c.HAL_PIXEL_FORMAT_RGB_565,
           c.HAL_PIXEL_FORMAT_BGRA_8888].Nodup)
    (hnz : c.DRM_FORMAT_XBGR8888 ≠ 0 ∧ c.DRM_FORMAT_BGR888 ≠ 0
      ∧ c.DRM_FORMAT_BGR565 ≠ 0 ∧ c.DRM_FORMAT_ARGB8888 ≠ 0) :
    convert_android_to_drm_fb_format c c.HAL_PIXEL_FORMAT_RGBA_8888 = c.DRM_FORMAT_XBGR8888
    ∧ convert_android_to_drm_fb_format c c.HAL_PIXEL_FORMAT_RGBX_8888 = c.DRM_FORMAT_XBGR8888
    ∧ convert_android_to_drm_fb_format c c.HAL_PIXEL_FORMAT_RGB_888 = c.DRM_FORMAT_BGR888
    ∧ convert_android_to_drm_fb_format c c.HAL_PIXEL_FORMAT_RGB_565 = c.DRM_FORMAT_BGR565
    ∧ convert_android_to_drm_fb_format c c.HAL_PIXEL_FORMAT_BGRA_8888 = c.DRM_FORMAT_ARGB8888
    ∧ (∀ format,
        format ∉ [c.HAL_PIXEL_FORMAT_RGBA_8888, c.HAL_PIXEL_FORMAT_RGBX_8888,
                  c.HAL_PIXEL_FORMAT_RGB_888, c.HAL_PIXEL_FORMAT_RGB_565,
                  c.HAL_PIXEL_FORMAT_BGRA_8888] →
        convert_android_to_drm_fb_format c format = 0)
    ∧ (∀ format,
        convert_android_to_drm_fb_format c format ≠ 0 ↔
        format ∈ [c.HAL_PIXEL_FORMAT_RGBA_8888, c.HAL_PIXEL_FORMAT_RGBX_8888,
                  c.HAL_PIXEL_FORMAT_RGB_888, c.HAL_PIXEL_FORMAT_RGB_565,
                  c.HAL_PIXEL_FORMAT_BGRA_8888]) := by
  simp only [List.nodup_cons, List.mem_cons, List.mem_singleton, List.not_mem_nil, not_or,
    not_false_eq_true, List.nodup_nil, and_true, or_false] at hd
  obtain ⟨⟨h12, h13, h14, h15⟩, ⟨h23, h24, h25⟩, ⟨h34, h35⟩, h45⟩ := hd
  obtain ⟨n1, n2, n3, n4⟩ := hnz
  have hother : ∀ format,
      format ∉ [c.HAL_PIXEL_FORMAT_RGBA_8888, c.HAL_PIXEL_FORMAT_RGBX_8888,
                c.HAL_PIXEL_FORMAT_RGB_888, c.HAL_PIXEL_FORMAT_RGB_565,
                c.HAL_PIXEL_FORMAT_BGRA_8888] →
      convert_android_to_drm_fb_format c format = 0 := by
    intro format hf
    simp only [List.mem_cons, List.mem_singleton, List.not_mem_nil, not_or, or_false] at hf
    obtain ⟨f1, f2, f3, f4, f5⟩ := hf
    simp [convert_android_to_drm_fb_format, f1, f2, f3, f4, f5]
  have e1 : convert_android_to_drm_fb_format c c.HAL_PIXEL_FORMAT_RGBA_8888
      = c.DRM_FORMAT_XBGR8888 := by
    simp [convert_android_to_drm_fb_format]
  have e2 : convert_android_to_drm_fb_format c c.HAL_PIXEL_FORMAT_RGBX_8888
      = c.DRM_FORMAT_XBGR8888 := by
    simp [convert_android_to_drm_fb_format]
  have e3 : convert_android_to_drm_fb_format c c.HAL_PIXEL_FORMAT_RGB_888
      = c.DRM_FORMAT_BGR888 := by
    simp [convert_android_to_drm_fb_format, Ne.symm h13, Ne.symm h23]
  have e4 : convert_android_to_drm_fb_format c c.HAL_PIXEL_FORMAT_RGB_565
      = c.DRM_FORMAT_BGR565 := by
    simp [convert_android_to_drm_fb_format, Ne.symm h14, Ne.symm h24, Ne.symm h34]
  have e5 : convert_android_to_drm_fb_format c c.HAL_PIXEL_FORMAT_BGRA_8888
      = c.DRM_FORMAT_ARGB8888 := by
    simp [convert_android_to_drm_fb_format, Ne.symm h15, Ne.symm h25, Ne.symm h35, Ne.symm h45]
  refine ⟨e1, e2, e3, e4, e5, hother, ?_⟩
  intro format
  constructor
  · intro hne
    by_contra hmem
    exact hne (hother format hmem)
  · intro hmem
    simp only [List.mem_cons, List.mem_singleton, List.not_mem_nil, or_false] at hmem
    rcases hmem with rfl | rfl | rfl | rfl | rfl
    · rw [e1]; exact n1
    · rw [e2]; exact n1
    · rw [e3]; exact n2
    · rw [e4]; exact n3
    · rw [e5]; exact n4

/-- Witness for C13: the table with the values of the Android and DRM headers. -/
theorem convert_format_table_witness :
    convert_android_to_drm_fb_format sampleFormats 1 = 875709016
    ∧ convert_android_to_drm_fb_format sampleFormats 2 = 875709016
    ∧ convert_android_to_drm_fb_format sampleFormats 3 = 875710274
    ∧ convert_android_to_drm_fb_format sampleFormats 4 = 909199170
    ∧ convert_android_to_drm_fb_format sampleFormats 5 = 875713089
    ∧ convert_android_to_drm_fb_format sampleFormats 6 = 0 :=
  have h := convert_format_table sampleFormats (by decide) (by decide)
  ⟨h.1, h.2.1, h.2.2.1, h.2.2.2.1, h.2.2.2.2.1, h.2.2.2.2.2.1 6 (by decide)⟩

/-- A successful `fb0_init` leaves both swap interval bounds at SWAP_INTERVAL
and the scheduler in its initial state. -/
theorem init_success_state (ENODEV : Int) (CONNECTED PREFERRED : Nat) (RGBA_8888 : Int)
    (dev : Device) (prop : Option (List Char)) (fb : drm_framebuffer) (out : InitOutcome)
    (hN : ENODEV ≠ 0)
    (h : fb0_init ENODEV CONNECTED PREFERRED RGBA_8888 dev prop fb = some out)
    (h0 : out.ret = 0) :
    out.fb.device.minSwapInterval = SWAP_INTERVAL
    ∧ out.fb.device.maxSwapInterval = SWAP_INTERVAL
    ∧ out.fb.current_fb = 0 ∧ out.fb.next_fb = 0 := by
  unfold fb0_init at h
  split at h
  · cases h
  · split at h
    · cases h
    · cases h
      simp at h0
      exact absurd h0 hN
    · split at h
      · cases h
      · simp only at h
        split at h
        · cases h
          simp at h0
          exact absurd h0 hN
        · split at h
          · cases h
            simp at h0
            exact absurd h0 hN
          · split at h
            · cases h
            · cases h
              exact ⟨rfl, rfl, rfl, rfl⟩

/-- C14: SetSwapInterval(n) returns success exactly when n = 1, the value of
SWAP_INTERVAL that a successful initialization publishes as minSwapInterval and
as maxSwapInterval; for every other n it returns -EINVAL; in both cases it makes
no libdrm call and leaves the record, the device descriptor included,
unchanged. -/
theorem set_swap_interval_spec (EINVAL ENODEV : Int) (CONNECTED PREFERRED : Nat)
    (RGBA_8888 : Int) (fb : drm_framebuffer) (n : Int)
    (hE : EINVAL ≠ 0) (hN : ENODEV ≠ 0) :
    ((fb0_set_swap_interval EINVAL fb n).ret = 0 ↔ n = 1)
    ∧ (n ≠ 1 → (fb0_set_swap_interval EINVAL fb n).ret = -EINVAL)
    ∧ (fb0_set_swap_interval EINVAL fb n).fb = fb
    ∧ (fb0_set_swap_interval EINVAL fb n).calls = []
    ∧ (∀ dev prop fb0 out,
        fb0_init ENODEV CONNECTED PREFERRED RGBA_8888 dev prop fb0 = some out → out.ret = 0 →
        out.fb.device.minSwapInterval = 1 ∧ out.fb.device.maxSwapInterval = 1) := by
  refine ⟨?_, ?_, ?_, ?_, ?_⟩
  · by_cases h1 : n = 1
    · simp [fb0_set_swap_interval, SWAP_INTERVAL, h1]
    · simp [fb0_set_swap_interval, SWAP_INTERVAL, h1, hE]
  · intro h1
    simp [fb0_set_swap_interval, SWAP_INTERVAL, h1]
  · by_cases h1 : n = 1 <;> simp [fb0_set_swap_interval, SWAP_INTERVAL, h1]
  · by_cases h1 : n = 1 <;> simp [fb0_set_swap_interval, SWAP_INTERVAL, h1]
  · intro dev prop fb0 out h h0
    have hs := init_success_state ENODEV CONNECTED PREFERRED RGBA_8888 dev prop fb0 out hN h h0
    exact ⟨hs.1, hs.2.1⟩

/-- Witness for C14: the interval 1 is accepted and 2 is rejected with -22. -/
theorem set_swap_interval_spec_witness :
    (fb0_set_swap_interval 22 (sampleFb 1 2) 1).ret = 0
    ∧ (fb0_set_swap_interval 22 (sampleFb 1 2) 2).ret = -22
    ∧ (fb0_set_swap_interval 22 (sampleFb 1 2) 2).fb = sampleFb 1 2 :=
  ⟨(set_swap_interval_spec 22 19 1 8 1 (sampleFb 1 2) 1 (by decide) (by decide)).1.mpr rfl,
    (set_swap_interval_spec 22 19 1 8 1 (sampleFb 1 2) 2 (by decide) (by decide)).2.1 (by decide),
    (set_swap_interval_spec 22 19 1 8 1 (sampleFb 1 2) 2 (by decide) (by decide)).2.2.1⟩

/-- C15: for a buffer with a valid handle: when its usage flags lack the
framebuffer bit, the import returns, makes no libdrm call and leaves the buffer
unchanged; when the bit is set and `drmPrimeFDToHandle` fails, the import
returns after that one call, registers no framebuffer and leaves the buffer,
its cached id included, unchanged. -/
theorem import_skips (HW_FB : Nat) (c : FormatCodes) (k : ImportKernel)
    (fb : drm_framebuffer) (handle : gralloc_handle_t) :
    (handle.usage &&& HW_FB = 0 →
      drm_framebuffer_import HW_FB c k fb (some handle) = some (handle, []))
    ∧ (handle.usage &&& HW_FB ≠ 0 → k.prime_ret ≠ 0 →
      drm_framebuffer_import HW_FB c k fb (some handle)
        = some (handle, [ImportCall.drmPrimeFDToHandle fb.fd handle.prime_fd])) := by
  constructor
  · intro h
    simp [drm_framebuffer_import, h]
  · intro h hp
    simp [drm_framebuffer_import, h, hp]

/-- Witness for C15: a buffer without the framebuffer bit (usage 3), and a
buffer with it (usage 4096) whose prime fd does not resolve. -/
theorem import_skips_witness :
    drm_framebuffer_import 4096 sampleFormats ⟨0, 42, 0, 17⟩ (sampleFb 0 0)
        (some { sampleBuffer 0 with usage := 3 })
      = some ({ sampleBuffer 0 with usage := 3 }, [])
    ∧ drm_framebuffer_import 4096 sampleFormats ⟨-1, 42, 0, 17⟩ (sampleFb 0 0)
        (some (sampleBuffer 0))
      = some (sampleBuffer 0, [ImportCall.drmPrimeFDToHandle 3 9]) :=
  ⟨(import_skips 4096 sampleFormats ⟨0, 42, 0, 17⟩ (sampleFb 0 0)
      { sampleBuffer 0 with usage := 3 }).1 (by decide),
    (import_skips 4096 sampleFormats ⟨-1, 42, 0, 17⟩ (sampleFb 0 0) (sampleBuffer 0)).2
      (by decide) (by decide)⟩

/-! ## The fallthrough of the mode scan -/

/-- C16: for a non-empty mode list in which no mode satisfies the break
condition of the scan (without a forced mode: the preferred flag; with one:
width, height and refresh rate), the mode returned is the last of the list, and
an initialization that has found a connector and a CRTC returns success; the
scan returns the null pointer, and such an initialization -ENODEV, exactly when
the mode list is empty. -/
theorem find_mode_fallthrough (ENODEV : Int) (CONNECTED PREFERRED : Nat) (RGBA_8888 : Int)
    (dev : Device) (res : drmModeRes) (prop : Option (List Char)) (fb : drm_framebuffer)
    (connector : drmModeConnector) :
    (connector.modes ≠ [] →
      (∀ m, m ∈ connector.modes → ¬ breaks PREFERRED (forced_mode prop) m) →
      fb0_find_preferred_mode PREFERRED prop connector = some (connector.modes.length - 1))
    ∧ (fb0_find_preferred_mode PREFERRED prop connector = none ↔ connector.modes = [])
    ∧ (∀ id ev1 crtc ev2, dev.resources = some res →
        fb0_find_connector CONNECTED dev res.connectors = some (some (id, connector), ev1) →
        fb0_find_crtc dev res connector = some (crtc, ev2) → crtc ≠ 0 →
        ∃ out, fb0_init ENODEV CONNECTED PREFERRED RGBA_8888 dev prop fb = some out
          ∧ (connector.modes ≠ [] → out.ret = 0)
          ∧ (connector.modes = [] → out.ret = -ENODEV)) := by
  refine ⟨?_, find_preferred_mode_none_iff PREFERRED prop connector, ?_⟩
  · intro hne hno
    unfold fb0_find_preferred_mode
    rw [find_mode_loop_fallthrough PREFERRED (forced_mode prop) connector.modes 0 none hno,
      if_neg hne]
    congr 1
    omega
  · intro id ev1 crtc ev2 hres hfc hcr hcrtc
    cases hm : fb0_find_preferred_mode PREFERRED prop connector with
    | none =>
      have hempty := (find_preferred_mode_none_iff PREFERRED prop connector).mp hm
      exact ⟨_, init_no_mode ENODEV CONNECTED PREFERRED RGBA_8888 dev res prop fb id connector
        ev1 ev2 crtc hres hfc hcr hcrtc hm, fun hne => absurd hempty hne, fun _ => rfl⟩
    | some i =>
      obtain ⟨mode, hget⟩ := find_preferred_mode_get PREFERRED prop connector i hm
      have hne : connector.modes ≠ [] := by
        intro hempty
        rw [(find_preferred_mode_none_iff PREFERRED prop connector).mpr hempty] at hm
        cases hm
      exact ⟨_, init_success ENODEV CONNECTED PREFERRED RGBA_8888 dev res prop fb id connector
        ev1 ev2 crtc i mode hres hfc hcr hcrtc hm hget, fun _ => rfl, fun he => absurd he hne⟩

/-- Witness for C16: with no forced mode and the list 1280x720, 1920x1080,
neither preferred, the scan returns the last mode, at index 1. -/
theorem find_mode_fallthrough_witness :
    fb0_find_preferred_mode 8 none (sampleConnector modesNoPreferred) = some 1 :=
  (find_mode_fallthrough 19 1 8 1 (sampleDevice [sampleConnector modesNoPreferred] [5] 1)
    { connectors := [7], crtcs := [5] } none (sampleFb 0 0)
    (sampleConnector modesNoPreferred)).1 (by decide) (by
      intro m hm
      simp only [sampleConnector, modesNoPreferred, List.mem_cons, List.mem_singleton,
        List.not_mem_nil, or_false] at hm
      rcases hm with rfl | rfl <;> decide)

/-! ## The wait for a pending flip -/

/-- C17: for an event wait that dispatches the completion handler once or not
at all: after `fb0_await_page_flip` pending_fb is 0; when pending_fb was P,
nonzero, one wait was made and current_fb is P; when pending_fb was 0, no wait
was made and the record is unchanged.  The result is the same for any two such
behaviours of the wait. -/
theorem await_final_state (k k2 : Kernel) (fb : drm_framebuffer)
    (hk : k.flips ≤ 1) (hk2 : k2.flips ≤ 1) :
    (fb0_await_page_flip k fb).1.next_fb = 0
    ∧ (fb.next_fb ≠ 0 →
        fb0_await_page_flip k fb
          = ({ fb with current_fb := fb.next_fb, next_fb := 0 },
             [KernelCall.drmHandleEvent fb.fd]))
    ∧ (fb.next_fb = 0 → fb0_await_page_flip k fb = (fb, []))
    ∧ fb0_await_page_flip k fb = fb0_await_page_flip k2 fb := by
  by_cases hP : fb.next_fb = 0
  · simp [await_idle, hP]
  · simp [await_pending, hP, hk, hk2]

/-- Witness for C17: in the state (current_fb = 1, pending_fb = 2) the wait
leaves (2, 0) whether the handler runs or not. -/
theorem await_final_state_witness :
    fb0_await_page_flip ⟨0, 0, 0⟩ (sampleFb 1 2)
      = (sampleFb 2 0, [KernelCall.drmHandleEvent 3])
    ∧ fb0_await_page_flip ⟨0, 0, 0⟩ (sampleFb 1 2) = fb0_await_page_flip ⟨1, 0, 0⟩ (sampleFb 1 2) :=
  ⟨(await_final_state ⟨0, 0, 0⟩ ⟨1, 0, 0⟩ (sampleFb 1 2) (by decide) (by decide)).2.1 (by decide),
    (await_final_state ⟨0, 0, 0⟩ ⟨1, 0, 0⟩ (sampleFb 1 2) (by decide) (by decide)).2.2.2⟩

/-! ## Release of the libdrm descriptors -/

theorem find_crtc_counts (dev : Device) (res : drmModeRes) (c : drmModeConnector)
    (crtc : Nat) (ev : List ResourceEvent) (h : fb0_find_crtc dev res c = some (crtc, ev)) :
    connectorGets ev = 0 ∧ connectorFrees ev = 0 ∧ encoderGets ev = 1 ∧ encoderFrees ev = 1 := by
  unfold fb0_find_crtc at h
  split at h
  · cases h
  · split at h
    · cases h
    · cases h
      simp [connectorGets, connectorFrees, encoderGets, encoderFrees]

theorem counts_append (ev1 ev2 : List ResourceEvent) :
    connectorGets (ev1 ++ ev2) = connectorGets ev1 + connectorGets ev2
    ∧ connectorFrees (ev1 ++ ev2) = connectorFrees ev1 + connectorFrees ev2
    ∧ encoderGets (ev1 ++ ev2) = encoderGets ev1 + encoderGets ev2
    ∧ encoderFrees (ev1 ++ ev2) = encoderFrees ev1 + encoderFrees ev2 := by
  simp [connectorGets, connectorFrees, encoderGets, encoderFrees, List.countP_append]

theorem counts_frame (ev : List ResourceEvent) :
    connectorGets (ResourceEvent.getResources :: ev ++ [ResourceEvent.freeResources])
      = connectorGets ev
    ∧ connectorFrees (ResourceEvent.getResources :: ev ++ [ResourceEvent.freeResources])
      = connectorFrees ev
    ∧ encoderGets (ResourceEvent.getResources :: ev ++ [ResourceEvent.freeResources])
      = encoderGets ev
    ∧ encoderFrees (ResourceEvent.getResources :: ev ++ [ResourceEvent.freeResources])
      = encoderFrees ev := by
  simp [connectorGets, connectorFrees, encoderGets, encoderFrees, List.countP_append,
    List.countP_cons]

/-- C18 (the code on the return path without a CRTC): when a connector is found
and `fb0_find_crtc` returns 0, `fb0_init` returns -ENODEV having released the
encoder descriptor and the connector descriptors it skipped, but not the
descriptor of the connector it selected: one more connector descriptor is
obtained than released. -/
theorem init_no_crtc_keeps_connector (ENODEV : Int) (CONNECTED PREFERRED : Nat)
    (RGBA_8888 : Int) (dev : Device) (res : drmModeRes) (prop : Option (List Char))
    (fb : drm_framebuffer) (id : Nat) (c : drmModeConnector) (ev1 ev2 : List ResourceEvent)
    (hres : dev.resources = some res)
    (hfc : fb0_find_connector CONNECTED dev res.connectors = some (some (id, c), ev1))
    (hcr : fb0_find_crtc dev res c = some (0, ev2)) :
    ∃ out, fb0_init ENODEV CONNECTED PREFERRED RGBA_8888 dev prop fb = some out
      ∧ out.ret = -ENODEV
      ∧ connectorGets out.events = connectorFrees out.events + 1
      ∧ encoderGets out.events = encoderFrees out.events := by
  refine ⟨_, init_no_crtc ENODEV CONNECTED PREFERRED RGBA_8888 dev res prop fb id c ev1 ev2
    hres hfc hcr, rfl, ?_, ?_⟩
  · obtain ⟨h1, _, _⟩ := find_connector_counts CONNECTED dev res.connectors _ _ hfc
    obtain ⟨h3, h4, _, _⟩ := find_crtc_counts dev res c 0 ev2 hcr
    have hf := counts_frame (ev1 ++ ev2)
    have ha := counts_append ev1 ev2
    simp only [List.cons_append, List.append_assoc] at hf ⊢
    rw [hf.1, hf.2.1, ha.1, ha.2.1, h1, h3, h4]
    simp
  · obtain ⟨_, h1, h2⟩ := find_connector_counts CONNECTED dev res.connectors _ _ hfc
    obtain ⟨_, _, h3, h4⟩ := find_crtc_counts dev res c 0 ev2 hcr
    have hf := counts_frame (ev1 ++ ev2)
    have ha := counts_append ev1 ev2
    simp only [List.cons_append, List.append_assoc] at hf ⊢
    rw [hf.2.2.1, hf.2.2.2, ha.2.2.1, ha.2.2.2, h1, h2, h3, h4]

/-- Witness for C18: the connector 22 is connected and its encoder can drive no
CRTC; initialization returns -19 and never releases the connector. -/
theorem init_no_crtc_keeps_connector_witness :
    fb0_init 19 1 8 1 (sampleDevice [connectorA, connectorB] [5, 6] 0) none (sampleFb 0 0)
      = some { ret := -19,
               fb := { sampleFb 0 0 with connector_id := 22, crtc_id := 0 },
               events := [ResourceEvent.getResources,
                 ResourceEvent.getConnector 21, ResourceEvent.freeConnector 21,
                 ResourceEvent.getConnector 22,
                 ResourceEvent.getEncoder 11, ResourceEvent.freeEncoder 11,
                 ResourceEvent.freeResources] }
    ∧ ∃ out, fb0_init 19 1 8 1 (sampleDevice [connectorA, connectorB] [5, 6] 0) none
          (sampleFb 0 0) = some out
        ∧ out.ret = -19
        ∧ connectorGets out.events = connectorFrees out.events + 1
        ∧ encoderGets out.events = encoderFrees out.events :=
  ⟨by decide,
    init_no_crtc_keeps_connector 19 1 8 1 (sampleDevice [connectorA, connectorB] [5, 6] 0)
      { connectors := [21, 22], crtcs := [5, 6] } none (sampleFb 0 0) 22 connectorB
      [ResourceEvent.getConnector 21, ResourceEvent.freeConnector 21,
       ResourceEvent.getConnector 22]
      [ResourceEvent.getEncoder 11, ResourceEvent.freeEncoder 11] rfl (by decide) (by decide)⟩

/-- On every return path of `fb0_init` other than the one without a CRTC, as
many connector descriptors are released as obtained; the encoder descriptor is
released on every path. -/
theorem init_release_counts (ENODEV : Int) (CONNECTED PREFERRED : Nat) (RGBA_8888 : Int)
    (dev : Device) (prop : Option (List Char)) (fb : drm_framebuffer) (out : InitOutcome)
    (h : fb0_init ENODEV CONNECTED PREFERRED RGBA_8888 dev prop fb = some out) :
    encoderGets out.events = encoderFrees out.events
    ∧ (connectorGets out.events = connectorFrees out.events
        ∨ (out.fb.crtc_id = 0 ∧ out.ret = -ENODEV
            ∧ connectorGets out.events = connectorFrees out.events + 1)) := by
  cases hres : dev.resources with
  | none => simp [fb0_init, hres] at h
  | some res =>
    cases hfc : fb0_find_connector CONNECTED dev res.connectors with
    | none => simp [fb0_init, hres, hfc] at h
    | some p =>
      obtain ⟨found, ev1⟩ := p
      obtain ⟨c1, c2, c3⟩ := find_connector_counts CONNECTED dev res.connectors _ _ hfc
      cases found with
      | none =>
        rw [init_no_connector ENODEV CONNECTED PREFERRED RGBA_8888 dev res prop fb ev1 hres hfc]
          at h
        cases h
        have hf := counts_frame ev1
        simp only [List.cons_append] at hf ⊢
        rw [hf.1, hf.2.1, hf.2.2.1, hf.2.2.2, c1, c2, c3]
        simp
      | some q =>
        obtain ⟨id, c⟩ := q
        cases hcr : fb0_find_crtc dev res c with
        | none => simp [fb0_init, hres, hfc, hcr] at h
        | some r =>
          obtain ⟨crtc, ev2⟩ := r
          obtain ⟨d1, d2, d3, d4⟩ := find_crtc_counts dev res c crtc ev2 hcr
          have hf := counts_frame (ev1 ++ ev2)
          have ha := counts_append ev1 ev2
          simp only [List.cons_append, List.append_assoc] at hf
          by_cases h0 : crtc = 0
          · subst h0
            rw [init_no_crtc ENODEV CONNECTED PREFERRED RGBA_8888 dev res prop fb id c ev1 ev2
              hres hfc hcr] at h
            cases h
            simp only [List.cons_append, List.append_assoc]
            rw [hf.1, hf.2.1, hf.2.2.1, hf.2.2.2, ha.1, ha.2.1, ha.2.2.1, ha.2.2.2,
              c1, c2, c3, d1, d2, d3, d4]
            simp
          · have hevents : ∀ evs : List ResourceEvent,
                evs = ResourceEvent.getResources :: ev1 ++ ev2
                  ++ [ResourceEvent.freeResources] ++ [ResourceEvent.freeConnector id] →
                encoderGets evs = encoderFrees evs ∧ connectorGets evs = connectorFrees evs := by
              intro evs he
              subst he
              have hb := counts_append
                (ResourceEvent.getResources :: (ev1 ++ (ev2 ++ [ResourceEvent.freeResources])))
                [ResourceEvent.freeConnector id]
              simp only [List.cons_append, List.append_assoc] at hb ⊢
              rw [hb.1, hb.2.1, hb.2.2.1, hb.2.2.2, hf.1, hf.2.1, hf.2.2.1, hf.2.2.2,
                ha.1, ha.2.1, ha.2.2.1, ha.2.2.2, c1, c2, c3, d1, d2, d3, d4]
              simp [connectorGets, connectorFrees, encoderGets, encoderFrees]
            cases hm : fb0_find_preferred_mode PREFERRED prop c with
            | none =>
              rw [init_no_mode ENODEV CONNECTED PREFERRED RGBA_8888 dev res prop fb id c ev1 ev2
                crtc hres hfc hcr h0 hm] at h
              cases h
              obtain ⟨e1, e2⟩ := hevents _ rfl
              exact ⟨e1, Or.inl e2⟩
            | some i =>
              obtain ⟨mode, hget⟩ := find_preferred_mode_get PREFERRED prop c i hm
              rw [init_success ENODEV CONNECTED PREFERRED RGBA_8888 dev res prop fb id c ev1 ev2
                crtc i mode hres hfc hcr h0 hm hget] at h
              cases h
              obtain ⟨e1, e2⟩ := hevents _ rfl
              exact ⟨e1, Or.inl e2⟩

/-! ## The invariant of the scheduler -/

/-- A wait that dispatches at most one event leaves no flip pending and keeps a
nonzero current_fb nonzero, in a state where a pending flip implies a current
buffer. -/
theorem await_keeps_current (k : Kernel) (fb : drm_framebuffer) (hk : k.flips ≤ 1)
    (hC : fb.current_fb ≠ 0) :
    (fb0_await_page_flip k fb).1.next_fb = 0
    ∧ (fb0_await_page_flip k fb).1.current_fb ≠ 0 := by
  by_cases hP : fb.next_fb = 0
  · simp [await_idle, hP, hC]
  · simp [await_pending, hP, hk]

/-- One step keeps the invariant: a flip is pending only with a current buffer. -/
theorem step_keeps_invariant (EINVAL EBUSY : Int) (k : Kernel) (fb : drm_framebuffer)
    (s : Step) (hk : k.flips ≤ 1) (hinv : fb.next_fb ≠ 0 → fb.current_fb ≠ 0) :
    (step EINVAL EBUSY k fb s).fb.next_fb ≠ 0 → (step EINVAL EBUSY k fb s).fb.current_fb ≠ 0 := by
  cases s with
  | page_flip_event =>
    intro h
    exact absurd rfl h
  | enable_screen enable =>
    by_cases hd : enable = 0 ∧ fb.current_fb ≠ 0
    · obtain ⟨he, hC⟩ := hd
      subst he
      obtain ⟨h1, _⟩ := await_keeps_current k fb hk hC
      intro h
      exfalso
      apply h
      by_cases hr : k.ret = 0 <;>
        simp [step, fb0_enable_screen, hC, fb0_disable_crtc, hr, h1]
    · simpa [step, fb0_enable_screen, hd] using hinv
  | post buffer =>
    cases buffer with
    | none => simpa [step, fb0_post] using hinv
    | some h =>
      by_cases h0 : cached_fb h = 0
      · simpa [step, fb0_post, h0] using hinv
      by_cases hcur : fb.current_fb = cached_fb h
      · simp [step, fb0_post, h0, hcur]
      by_cases hC : fb.current_fb = 0
      · have hP : fb.next_fb = 0 := by
          by_contra hne
          exact hinv hne hC
        by_cases hr : k.ret = 0 <;>
          simp [step, fb0_post, h0, hcur, hC, Ne.symm h0, fb0_enable_crtc, hr, hP]
      · obtain ⟨h1, h2⟩ := await_keeps_current k fb hk hC
        by_cases hr : k.ret = 0
        · intro _
          simpa [step, fb0_post, h0, hcur, hC, fb0_page_flip, hr] using h2
        · intro hne
          exfalso
          apply hne
          by_cases hm : k.errno = -EBUSY <;>
            simp [step, fb0_post, h0, hcur, hC, fb0_page_flip, hr, hm, h1]

/-- C19: in every state reached from a state with no flip pending, such as the
initial state (current_fb = 0, pending_fb = 0), by a sequence of steps of the
scheduler (Post, SetScreenEnabled, and also the page-flip handler), with any
kernel results and each event wait dispatching the handler at most once,
a pending flip implies a current buffer.  Hence exactly one of DISABLED,
ENABLED and FLIP_PENDING holds, and a flip is never pending while the CRTC is
recorded as disabled. -/
theorem reachable_invariant (EINVAL EBUSY : Int) (calls : List (Kernel × Step))
    (fb : drm_framebuffer) (hp : fb.next_fb = 0)
    (hk : ∀ ks, ks ∈ calls → ks.1.flips ≤ 1) :
    ((run EINVAL EBUSY calls fb).next_fb ≠ 0 → (run EINVAL EBUSY calls fb).current_fb ≠ 0)
    ∧ ((DISABLED (run EINVAL EBUSY calls fb) ∧ ¬ ENABLED (run EINVAL EBUSY calls fb)
          ∧ ¬ FLIP_PENDING (run EINVAL EBUSY calls fb))
        ∨ (¬ DISABLED (run EINVAL EBUSY calls fb) ∧ ENABLED (run EINVAL EBUSY calls fb)
          ∧ ¬ FLIP_PENDING (run EINVAL EBUSY calls fb))
        ∨ (¬ DISABLED (run EINVAL EBUSY calls fb) ∧ ¬ ENABLED (run EINVAL EBUSY calls fb)
          ∧ FLIP_PENDING (run EINVAL EBUSY calls fb))) := by
  have hinv : ∀ (calls : List (Kernel × Step)) (fb : drm_framebuffer),
      (fb.next_fb ≠ 0 → fb.current_fb ≠ 0) →
      (∀ ks, ks ∈ calls → ks.1.flips ≤ 1) →
      ((run EINVAL EBUSY calls fb).next_fb ≠ 0 → (run EINVAL EBUSY calls fb).current_fb ≠ 0) := by
    intro calls
    induction calls with
    | nil => intro fb h _; exact h
    | cons a rest ih =>
      intro fb h hk
      obtain ⟨k, s⟩ := a
      simp only [run]
      exact ih _ (step_keeps_invariant EINVAL EBUSY k fb s (hk (k, s) (by simp)) h)
        (fun ks hks => hk ks (List.mem_cons_of_mem _ hks))
  have h := hinv calls fb (fun hne => absurd hp hne) hk
  refine ⟨h, ?_⟩
  unfold DISABLED ENABLED FLIP_PENDING
  by_cases hP : (run EINVAL EBUSY calls fb).next_fb = 0
  · by_cases hC : (run EINVAL EBUSY calls fb).current_fb = 0
    · left
      simp [hP, hC]
    · right; left
      simp [hP, hC]
  · right; right
    simp [hP, h hP]

/-- Witness for C19: Post(1), Post(2), a disable that fails, Post(3) whose flip
is rejected, from the initial state. -/
theorem reachable_invariant_witness :
    run 22 16
        [(⟨0, 0, 0⟩, Step.post (some (sampleBuffer 1))),
         (⟨0, 0, 0⟩, Step.post (some (sampleBuffer 2))),
         (⟨0, -22, 22⟩, Step.enable_screen 0),
         (⟨1, -22, 22⟩, Step.post (some (sampleBuffer 3)))] (sampleFb 0 0)
      = sampleFb 0 0
    ∧ ((run 22 16
        [(⟨0, 0, 0⟩, Step.post (some (sampleBuffer 1))),
         (⟨0, 0, 0⟩, Step.post (some (sampleBuffer 2)))] (sampleFb 0 0)).next_fb ≠ 0 →
      (run 22 16
        [(⟨0, 0, 0⟩, Step.post (some (sampleBuffer 1))),
         (⟨0, 0, 0⟩, Step.post (some (sampleBuffer 2)))] (sampleFb 0 0)).current_fb ≠ 0) :=
  ⟨by decide,
    (reachable_invariant 22 16
      [(⟨0, 0, 0⟩, Step.post (some (sampleBuffer 1))),
       (⟨0, 0, 0⟩, Step.post (some (sampleBuffer 2)))] (sampleFb 0 0) rfl
      (by decide)).1⟩

/-! ## Post of a buffer without a framebuffer -/

/-- C20: Post of a buffer whose handle is invalid or whose cached framebuffer
id is 0 returns -EINVAL, makes no libdrm call and leaves the record unchanged.
Consequently every page-flip request and every CRTC enable that Post issues
binds a nonzero id, which is the id that Post stores in pending_fb, or in
current_fb, when the call succeeds. -/
theorem post_invalid_buffer (EINVAL EBUSY : Int) (k : Kernel) (fb : drm_framebuffer)
    (buffer : Option gralloc_handle_t) :
    ((buffer = none ∨ ∃ h, buffer = some h ∧ cached_fb h = 0) →
      fb0_post EINVAL EBUSY k fb buffer = { ret := -EINVAL, fb := fb, calls := [] })
    ∧ (∀ fd crtc id,
        KernelCall.drmModePageFlip fd crtc id ∈ (fb0_post EINVAL EBUSY k fb buffer).calls →
        id ≠ 0 ∧ (k.ret = 0 → (fb0_post EINVAL EBUSY k fb buffer).fb.next_fb = id))
    ∧ (∀ fd crtc id x y connectors mode,
        KernelCall.drmModeSetCrtc fd crtc id x y connectors mode
          ∈ (fb0_post EINVAL EBUSY k fb buffer).calls →
        id ≠ 0 ∧ (k.ret = 0 → (fb0_post EINVAL EBUSY k fb buffer).fb.current_fb = id)) := by
  refine ⟨?_, ?_, ?_⟩
  · rintro (rfl | ⟨h, rfl, h0⟩)
    · rfl
    · simp [fb0_post, h0]
  · intro fd crtc id hin
    cases buffer with
    | none => simp [fb0_post] at hin
    | some h =>
      by_cases h0 : cached_fb h = 0
      · simp [fb0_post, h0] at hin
      by_cases hcur : fb.current_fb = cached_fb h
      · simp [fb0_post, h0, hcur] at hin
      by_cases hC : fb.current_fb = 0
      · by_cases hr : k.ret = 0 <;>
          simp [fb0_post, h0, hcur, hC, Ne.symm h0, fb0_enable_crtc, hr] at hin
      · have hid : id = cached_fb h := by
          by_cases hP : fb.next_fb = 0
          · by_cases hr : k.ret = 0
            · simp [fb0_post, h0, hcur, hC, fb0_page_flip, hr, await_idle k fb hP,
                toU32_toS32_cached] at hin
              exact hin.2.2
            · by_cases hm : k.errno = -EBUSY <;>
                simp [fb0_post, h0, hcur, hC, fb0_page_flip, hr, hm, await_idle k fb hP,
                  toU32_toS32_cached] at hin <;>
                exact hin.2.2
          · by_cases hr : k.ret = 0
            · simp [fb0_post, h0, hcur, hC, fb0_page_flip, hr, await_pending k fb hP,
                toU32_toS32_cached] at hin
              exact hin.2.2
            · by_cases hm : k.errno = -EBUSY <;>
                simp [fb0_post, h0, hcur, hC, fb0_page_flip, hr, hm, await_pending k fb hP,
                  toU32_toS32_cached] at hin <;>
                exact hin.2.2
        subst hid
        refine ⟨h0, ?_⟩
        intro hr
        simp [fb0_post, h0, hcur, hC, fb0_page_flip, hr, toU32_toS32_cached]
  · intro fd crtc id x y connectors mode hin
    cases buffer with
    | none => simp [fb0_post] at hin
    | some h =>
      by_cases h0 : cached_fb h = 0
      · simp [fb0_post, h0] at hin
      by_cases hcur : fb.current_fb = cached_fb h
      · simp [fb0_post, h0, hcur] at hin
      by_cases hC : fb.current_fb = 0
      · have hid : id = cached_fb h := by
          by_cases hr : k.ret = 0 <;>
            simp [fb0_post, h0, hcur, hC, Ne.symm h0, fb0_enable_crtc, hr] at hin <;>
            exact hin.2.2.1
        subst hid
        refine ⟨h0, ?_⟩
        intro hr
        simp [fb0_post, h0, hcur, hC, Ne.symm h0, fb0_enable_crtc, hr]
      · exfalso
        by_cases hP : fb.next_fb = 0
        · by_cases hr : k.ret = 0
          · simp [fb0_post, h0, hcur, hC, fb0_page_flip, hr, await_idle k fb hP] at hin
          · by_cases hm : k.errno = -EBUSY <;>
              simp [fb0_post, h0, hcur, hC, fb0_page_flip, hr, hm, await_idle k fb hP] at hin
        · by_cases hr : k.ret = 0
          · simp [fb0_post, h0, hcur, hC, fb0_page_flip, hr, await_pending k fb hP] at hin
          · by_cases hm : k.errno = -EBUSY <;>
              simp [fb0_post, h0, hcur, hC, fb0_page_flip, hr, hm, await_pending k fb hP] at hin

/-- Witness for C20: Post of an invalid buffer and of a buffer with cached id 0
in the state (current_fb = 1, pending_fb = 2). -/
theorem post_invalid_buffer_witness :
    fb0_post 22 16 ⟨1, 0, 0⟩ (sampleFb 1 2) none
      = { ret := -22, fb := sampleFb 1 2, calls := [] }
    ∧ fb0_post 22 16 ⟨1, 0, 0⟩ (sampleFb 1 2) (some (sampleBuffer 0))
      = { ret := -22, fb := sampleFb 1 2, calls := [] } :=
  ⟨(post_invalid_buffer 22 16 ⟨1, 0, 0⟩ (sampleFb 1 2) none).1 (Or.inl rfl),
    (post_invalid_buffer 22 16 ⟨1, 0, 0⟩ (sampleFb 1 2) (some (sampleBuffer 0))).1
      (Or.inr ⟨sampleBuffer 0, rfl, by decide⟩)⟩

end DrmFramebuffer
